import Mathlib

/-!
Verification of the Go test-quality checker scripts
(`check-anti-patterns.py`, `check-complexity.py`, `check-external-deps.py`,
`check-flaky-patterns.py` and the shared `test_quality_common.py`).

The scripts analyse tree-sitter parse trees of Go test files.  This file
shallowly embeds the analysis pipeline:

* `Node` models a tree-sitter syntax node: a kind tag, the field name under
  its parent (tree-sitter "field"), the node's source text (the decoded
  bytes `source[start_byte:end_byte]`), its start/end rows (0-based, as in
  `node.start_point[0]` / `node.end_point[0]`), and its ordered children.
* Each tree-sitter query of the scripts is embedded as a structural matcher
  over all nodes of a subtree, in document (preorder) order.
  Two result shapes occur in the scripts and are both modelled:
  results obtained through `QueryCursor(query).captures(node)` are grouped
  per capture name (the scripts then zip the per-name lists), while results
  obtained through the older `query.captures(node)` interface are consumed
  by the scripts as one flat list of `(node, capture_name)` pairs
  (`for node, capture_name in ...`, `captures[:20]`, `len(captures)`), one
  pair per capture per match; the embedding produces exactly those flat
  lists where the scripts use that interface.
* Regexes are embedded as executable string predicates over ASCII text,
  one definition per regex of the scripts.
* The per-rule checkers, the per-file analysis, file discovery, the
  aggregation (sorting and per-pattern caps) and the JSON report of each
  script's `main` are embedded as pure functions.
-/

/-- Tree-sitter node kinds of the Go grammar that the scripts' queries
mention (plus `other_node` for any kind irrelevant to every query). -/
inductive NodeKind where
  | function_declaration
  | identifier
  | parameter_list
  | block
  | call_expression
  | selector_expression
  | field_identifier
  | argument_list
  | go_statement
  | defer_statement
  | for_statement
  | if_statement
  | switch_statement
  | select_statement
  | interpreted_string_literal
  | raw_string_literal
  | comment
  | assignment_statement
  | expression_list
  | send_statement
  | receive_statement
  | channel_type
  | composite_literal
  | type_identifier
  | pointer_type
  | other_node
  deriving DecidableEq, Repr

/-- A tree-sitter syntax node (see module docstring). -/
inductive Node where
  | mk (kind : NodeKind) (fieldName : Option String) (text : String)
       (startRow : Nat) (endRow : Nat) (children : List Node)

/-- The node's kind tag (`node.type` in tree-sitter). -/
def Node.kind : Node → NodeKind
  | .mk k _ _ _ _ _ => k

/-- The tree-sitter field name under which this node sits in its parent
(`child_by_field_name` finds it), if any. -/
def Node.fieldName : Node → Option String
  | .mk _ f _ _ _ _ => f

/-- The node's source text, `get_node_text(node, source_bytes)` of the
scripts (also `node.text` decoded). -/
def Node.text : Node → String
  | .mk _ _ t _ _ _ => t

/-- `node.start_point[0]`: 0-based row of the node's first character. -/
def Node.startRow : Node → Nat
  | .mk _ _ _ s _ _ => s

/-- `node.end_point[0]`: 0-based row of the node's last character. -/
def Node.endRow : Node → Nat
  | .mk _ _ _ _ e _ => e

/-- The node's ordered children. -/
def Node.children : Node → List Node
  | .mk _ _ _ _ _ cs => cs

/-- Tree-sitter `child_by_field_name`: the first child carrying the given
field name. -/
def Node.childField (n : Node) (f : String) : Option Node :=
  n.children.find? (fun c => c.fieldName == some f)

mutual

/-- All nodes of a subtree in document (preorder) order, the node itself
included.  Every tree-sitter query of the scripts is run over this list. -/
def collectAll : Node → List Node
  | .mk k f t s e cs => Node.mk k f t s e cs :: collectAllL cs

/-- `collectAll` mapped over a list of sibling subtrees. -/
def collectAllL : List Node → List Node
  | [] => []
  | c :: cs => collectAll c ++ collectAllL cs

end

/-- Character class of the regex `\w` (ASCII reading). -/
def isWordChar (c : Char) : Bool := c.isAlphanum || c = '_'

/-- Character class of the regex `\s`. -/
def isSpaceChar (c : Char) : Bool :=
  c = ' ' || c = '\t' || c = '\n' || c = '\r' || c = '\x0b' || c = '\x0c'

/-- `pat` occurs as a contiguous substring of `s` (the boolean outcome of
`re.search` on a regex that is a plain literal). -/
def strContainsSub (s pat : String) : Bool := decide (pat.data <:+: s.data)

/-- After the characters `err`, match `\s*!=\s*nil\b`. -/
def errNilTail (cs : List Char) : Bool :=
  match cs.dropWhile isSpaceChar with
  | '!' :: '=' :: rest =>
    match rest.dropWhile isSpaceChar with
    | 'n' :: 'i' :: 'l' :: rest2 =>
      match rest2 with
      | [] => true
      | c :: _ => !isWordChar c
    | _ => false
  | _ => false

/-- Match `err\s*!=\s*nil\b` at the head of the character list. -/
def errNilAt : List Char → Bool
  | 'e' :: 'r' :: 'r' :: rest => errNilTail rest
  | _ => false

/-- Scan for `\berr\s*!=\s*nil\b`, tracking the previous character to
decide the leading word boundary `\b`. -/
def hasErrNilAux : Option Char → List Char → Bool
  | _, [] => false
  | prev, c :: cs =>
    ((match prev with
      | none => true
      | some p => !isWordChar p) && errNilAt (c :: cs)) || hasErrNilAux (some c) cs

/-- The boolean outcome of `re.search(r'\berr\s*!=\s*nil\b', text)` used by
`count_control_flow_statements`. -/
def hasErrNilCheck (s : String) : Bool := hasErrNilAux none s.data

/-- Match one of the duration units `Millisecond|Second|Minute` as a prefix
of the character list. -/
def timeUnitAt (cs : List Char) : Bool :=
  "Millisecond".data.isPrefixOf cs || "Second".data.isPrefixOf cs
    || "Minute".data.isPrefixOf cs

/-- Match `\d+\s*\*\s*time\.(Millisecond|Second|Minute)` at the head of the
character list. -/
def numericTimeoutAt : List Char → Bool
  | [] => false
  | c :: rest =>
    c.isDigit &&
      (match (rest.dropWhile Char.isDigit).dropWhile isSpaceChar with
       | '*' :: r3 =>
         (let r4 := r3.dropWhile isSpaceChar
          if "time.".data.isPrefixOf r4 then timeUnitAt (r4.drop 5) else false)
       | _ => false)

/-- The boolean outcome of
`re.search(r'\d+\s*\*\s*time\.(Millisecond|Second|Minute)', text)` used by
`has_numeric_timeout`. -/
def hasNumericTimeoutText (s : String) : Bool := s.data.tails.any numericTimeoutAt

/-- Character class `[A-Z]`. -/
def isUpperAZ (c : Char) : Bool := 'A' ≤ c && c ≤ 'Z'

/-- The boolean outcome of `re.match(r'^[A-Z][A-Z_]+$', var_name)` used by
`check_global_state`. -/
def isGlobalVarName (s : String) : Bool :=
  match s.data with
  | [] => false
  | c :: rest => isUpperAZ c && !rest.isEmpty && rest.all (fun d => isUpperAZ d || d = '_')

/-- `re.match(r'^Test[A-Z]?$', name)`. -/
def poorName1 (s : String) : Bool :=
  match s.data with
  | 'T' :: 'e' :: 's' :: 't' :: rest =>
    match rest with
    | [] => true
    | [c] => isUpperAZ c
    | _ => false
  | _ => false

/-- Strip a literal prefix, returning the remainder when it is present. -/
def stripLit (lit : String) (cs : List Char) : Option (List Char) :=
  if lit.data.isPrefixOf cs then some (cs.drop lit.data.length) else none

/-- `re.match(r'^Test[0-9]+$', name)`. -/
def poorName2 (s : String) : Bool :=
  match stripLit "Test" s.data with
  | some rest => !rest.isEmpty && rest.all Char.isDigit
  | none => false

/-- `re.match(r'^TestCase[0-9]*$', name)`. -/
def poorName3 (s : String) : Bool :=
  match stripLit "TestCase" s.data with
  | some rest => rest.all Char.isDigit
  | none => false

/-- `re.match(r'^TestFunc[0-9]*$', name)`. -/
def poorName4 (s : String) : Bool :=
  match stripLit "TestFunc" s.data with
  | some rest => rest.all Char.isDigit
  | none => false

/-- `re.match(r'^Test(Foo|Bar)$', name)`. -/
def poorName5 (s : String) : Bool := s == "TestFoo" || s == "TestBar"

/-- Any of the five "too generic name" regexes of `check_test_names`
matches. -/
def isPoorTestName (s : String) : Bool :=
  poorName1 s || poorName2 s || poorName3 s || poorName4 s || poorName5 s

/-- `get_code_snippet` of `test_quality_common.py` (with its only used
`max_length`, the default 100): first line plus an ellipsis when
multiline, truncated at 100 characters, stripped. -/
def get_code_snippet (text : String) : String :=
  let s1 := if text.contains '\n' then ((text.splitOn "\n").headD "") ++ "..." else text
  let s2 := if s1.length > 100 then s1.take 100 ++ "..." else s1
  s2.trim

/-- The shapes of the `package_pattern` / `method_pattern` regex strings
passed to `find_function_calls` by the scripts, with their denotations as
full-string matches (the scripts wrap every pattern as `^pattern$`):
`exactName s` for a plain literal, `anyName` for `.*`, `startsWithName s`
for `s.*`, and `oneOfNames ss` for the alternation `(s1|s2|...)`. -/
inductive NamePat where
  | exactName (s : String)
  | anyName
  | startsWithName (s : String)
  | oneOfNames (ss : List String)
  deriving DecidableEq, Repr

/-- `re.match("^" + pattern + "$", t)` for the pattern shapes above. -/
def NamePat.matchesName : NamePat → String → Bool
  | .exactName s, t => t == s
  | .anyName, _ => true
  | .startsWithName s, t => s.isPrefixOf t
  | .oneOfNames ss, t => ss.contains t

/-- Structural part of `QUALIFIED_CALL_QUERY` (and of the assertion
queries): a `call_expression` whose `function` field is a
`selector_expression` with an `identifier` operand and a `field_identifier`
field.  Returns the `(operand, field)` capture nodes. -/
def selCallStruct (n : Node) : Option (Node × Node) :=
  if n.kind = .call_expression then
    match n.childField "function" with
    | some fn =>
      if fn.kind = .selector_expression then
        match fn.childField "operand", fn.childField "field" with
        | some op, some fld =>
          if op.kind = .identifier ∧ fld.kind = .field_identifier then some (op, fld)
          else none
        | some _, none => none
        | none, _ => none
      else none
    | none => none
  else none

/-- `find_function_calls` of `test_quality_common.py`: all qualified-call
matches in scope whose package and method text match the given patterns.
The per-name capture lists of `QueryCursor.captures` are aligned one entry
per match, so the script's `zip(call_nodes, package_nodes, method_nodes)`
pairs exactly the per-match captures modelled here.  Returns
`(call_node, package_text, method_text)` triples. -/
def find_function_calls (body_node : Node) (package_pattern : NamePat)
    (method_pattern : Option NamePat) : List (Node × String × String) :=
  (collectAll body_node).filterMap (fun n =>
    match selCallStruct n with
    | some (op, fld) =>
      if package_pattern.matchesName op.text
          && (match method_pattern with
              | none => true
              | some mp => mp.matchesName fld.text) then
        some (n, op.text, fld.text)
      else none
    | none => none)

/-- `has_pattern_in_scope` of `test_quality_common.py`. -/
def has_pattern_in_scope (body_node : Node) (package_pattern : NamePat)
    (method_pattern : Option NamePat) : Bool :=
  !(find_function_calls body_node package_pattern method_pattern).isEmpty

/-- `find_goroutines`: the `@goroutine` captures of `GOROUTINE_QUERY`, the
`go_statement` nodes having a `call_expression` child. -/
def find_goroutines (body_node : Node) : List Node :=
  (collectAll body_node).filter (fun n =>
    n.kind == .go_statement && n.children.any (fun c => c.kind == .call_expression))

/-- `find_defer_statements`: the `@defer` captures of `DEFER_QUERY`, the
`defer_statement` nodes having a `call_expression` child. -/
def find_defer_statements (body_node : Node) : List Node :=
  (collectAll body_node).filter (fun n =>
    n.kind == .defer_statement && n.children.any (fun c => c.kind == .call_expression))

/-- Flat capture list of the `assert.*` / `require.*` query of
`count_assertions`.  Each match of the query carries two captures, `@obj`
(the operand identifier) and `@assertion` (the call), so each matching
call contributes two entries. -/
def assertionCaptureList (b : Node) : List (Node × String) :=
  (collectAll b).flatMap (fun n =>
    match selCallStruct n with
    | some (op, _fld) =>
      if op.text == "assert" || op.text == "require" then [(op, "obj"), (n, "assertion")]
      else []
    | none => [])

/-- Flat capture list of the `t.Error/Fatal/Errorf/Fatalf` query of
`count_assertions`.  Each match carries three captures, `@obj`, `@method`
and `@t_assertion`, so each matching call contributes three entries. -/
def tAssertionCaptureList (b : Node) : List (Node × String) :=
  (collectAll b).flatMap (fun n =>
    match selCallStruct n with
    | some (op, fld) =>
      if op.text == "t" && (["Error", "Fatal", "Errorf", "Fatalf"] : List String).contains fld.text then
        [(op, "obj"), (fld, "method"), (n, "t_assertion")]
      else []
    | none => [])

/-- `count_assertions` of `check-anti-patterns.py`: the sum of the lengths
of the two queries' flat capture lists
(`len(assertion_query.captures(body_node)) +
len(t_assertion_query.captures(body_node))`). -/
def count_assertions (b : Node) : Nat :=
  (assertionCaptureList b).length + (tAssertionCaptureList b).length

/-- The `@string` captures of the string-literal query of
`check_database_connections`: every `interpreted_string_literal` or
`raw_string_literal` node in scope, one capture per literal. -/
def stringLiteralCaptures (b : Node) : List Node :=
  (collectAll b).filter (fun n =>
    n.kind == .interpreted_string_literal || n.kind == .raw_string_literal)

/-- The boolean outcome of `re.search(r'(postgres|mysql)://', text)`. -/
def hasDbScheme (s : String) : Bool :=
  strContainsSub s "postgres://" || strContainsSub s "mysql://"

/-- Match the `make(chan ...)` alternative of the channel query of
`has_channel_usage`: a call whose `function` is the identifier `make` and
whose `arguments` list contains a `channel_type`.  Returns the `@make`
capture (the identifier node). -/
def isMakeChanCall (n : Node) : Option Node :=
  if n.kind = .call_expression then
    match n.childField "function" with
    | some fn =>
      if fn.kind = .identifier ∧ fn.text = "make" then
        match n.childField "arguments" with
        | some args =>
          if args.kind = .argument_list ∧ args.children.any (fun c => c.kind == .channel_type) then
            some fn
          else none
        | none => none
      else none
    | none => none
  else none

/-- Flat capture list of the channel query of `has_channel_usage`: a
`make(chan ...)` call contributes `@make` and `@make_chan`, a
`send_statement` contributes `@send`, a `receive_statement` contributes
`@receive`. -/
def channelCaptureList (b : Node) : List (Node × String) :=
  (collectAll b).flatMap (fun n =>
    (match isMakeChanCall n with
     | some fn => [(fn, "make"), (n, "make_chan")]
     | none => []) ++
    (if n.kind == .send_statement then [(n, "send")] else []) ++
    (if n.kind == .receive_statement then [(n, "receive")] else []))

/-- `has_channel_usage` of `check-flaky-patterns.py`:
`len(channel_query.captures(body_node)) > 0`. -/
def has_channel_usage (body_node : Node) : Bool :=
  !(channelCaptureList body_node).isEmpty

/-- One entry of the flat capture list of the assignment query of
`check_global_state`.  `parentNode` embeds the tree-sitter `node.parent`
pointer for the captures whose parent the checker reads: for a `@var`
capture (an identifier in the `left:` expression list) the parent is that
`expression_list` node; the checker never reads the parent of an
`@assignment` capture, so it is not recorded there. -/
structure GsCap where
  node : Node
  capName : String
  parentNode : Option Node

/-- Flat capture list of the assignment query of `check_global_state`: for
each identifier directly under the `left:` `expression_list` of an
`assignment_statement` there is one match carrying the `@assignment`
capture (the whole statement) and the `@var` capture (the identifier). -/
def assignmentCaptureList (b : Node) : List GsCap :=
  (collectAll b).flatMap (fun n =>
    if n.kind = .assignment_statement then
      match n.childField "left" with
      | some el =>
        if el.kind = .expression_list then
          (el.children.filter (fun c => c.kind == .identifier)).flatMap
            (fun v => [⟨n, "assignment", none⟩, ⟨v, "var", some el⟩])
        else []
      | none => []
    else [])

/-- `k` is one of the four kinds of `CONTROL_FLOW_QUERY`. -/
def isControlFlowKind (k : NodeKind) : Bool :=
  k == .for_statement || k == .if_statement || k == .switch_statement
    || k == .select_statement

/-- The nodes of one kind in scope, in document order. -/
def controlFlowNodesOf (b : Node) (k : NodeKind) : List Node :=
  (collectAll b).filter (fun n => n.kind == k)

/-- `count_control_flow_statements` of `test_quality_common.py`.
`CONTROL_FLOW_QUERY` captures every matched construct twice: once under
its kind-specific name (`@for`, `@if`, `@switch`, `@select`) and once
under the umbrella capture `@control_flow` placed on the whole
alternation.  The script iterates over all entries of the capture
dictionary and increments the count for every captured node, skipping only
those nodes listed under the capture name `"if"` whose text matches
`\berr\s*!=\s*nil\b`.  The resulting total (iteration order of the
dictionary is irrelevant to a sum) is the four kind-specific counts, the
`if` count keeping only non-error-check nodes, plus the umbrella count of
all four kinds with no exclusion. -/
def count_control_flow_statements (b : Node) : Nat :=
  (controlFlowNodesOf b .for_statement).length
    + ((controlFlowNodesOf b .if_statement).filter (fun n => !hasErrNilCheck n.text)).length
    + (controlFlowNodesOf b .switch_statement).length
    + (controlFlowNodesOf b .select_statement).length
    + ((collectAll b).filter (fun n => isControlFlowKind n.kind)).length

/-- Match the composite-literal alternative of the mock query of
`count_mock_objects`: a `composite_literal` whose `type` field is a
`type_identifier` (directly or under a `pointer_type`) whose text starts
with `Mock`.  Returns the `@type` capture. -/
def mockCompositeMatch (n : Node) : Option Node :=
  if n.kind = .composite_literal then
    match n.childField "type" with
    | some ty =>
      if ty.kind = .type_identifier then
        (if "Mock".isPrefixOf ty.text then some ty else none)
      else if ty.kind = .pointer_type then
        match ty.children.find? (fun c => c.kind == .type_identifier) with
        | some ti => if "Mock".isPrefixOf ti.text then some ti else none
        | none => none
      else none
    | none => none
  else none

/-- Flat capture list of the composite-literal mock query: each match
carries `@type` and `@composite`. -/
def mockCompositeCaptureList (b : Node) : List (Node × String) :=
  (collectAll b).flatMap (fun n =>
    match mockCompositeMatch n with
    | some ty => [(ty, "type"), (n, "composite")]
    | none => [])

/-- Flat capture list of the call mock query of `count_mock_objects`: a
call of a plain identifier matching `^(new|New)Mock` carries `@func` and
`@call`; a call of a selector whose field matches `^NewMock` carries
`@method` and `@call`. -/
def mockCallCaptureList (b : Node) : List (Node × String) :=
  (collectAll b).flatMap (fun n =>
    if n.kind = .call_expression then
      match n.childField "function" with
      | some fn =>
        (if fn.kind = .identifier ∧ ("newMock".isPrefixOf fn.text ∨ "NewMock".isPrefixOf fn.text) then
          [(fn, "func"), (n, "call")]
        else []) ++
        (if fn.kind = .selector_expression then
          match fn.childField "field" with
          | some fld =>
            if fld.kind = .field_identifier ∧ "NewMock".isPrefixOf fld.text then
              [(fld, "method"), (n, "call")]
            else []
          | none => []
        else [])
      | none => []
    else [])

/-- `count_mock_objects` of `check-complexity.py`:
`len(composite_query.captures(body_node)) + len(call_query.captures(body_node))`. -/
def count_mock_objects (b : Node) : Nat :=
  (mockCompositeCaptureList b).length + (mockCallCaptureList b).length

/-- The `Issue` dataclass of `test_quality_common.py`.  Metric values are
the integer counts the scripts store there. -/
structure Issue where
  file : String
  line : Nat
  test_name : String
  issue : String
  category : String
  severity : String
  pattern : String
  code_snippet : String
  suggestion : String
  metrics : List (String × Nat)
  deriving DecidableEq, BEq, Repr

/-- The `TestFunction` dataclass of `test_quality_common.py`.  `fileStr` is
the display path of the file the unit came from, the value
`relative_path(filepath, project_root)` that every rule stores in
`Issue.file`; the raw source bytes are not carried separately because every
node already carries its text. -/
structure TestFunction where
  name : String
  start_line : Nat
  end_line : Nat
  body_node : Node
  fileStr : String

/-- The `(package, method)` pairs of `reflection_patterns` in
`check_reflection_usage`. -/
def reflectionPatterns : List (String × String) :=
  [("reflect", "ValueOf"), ("reflect", "TypeOf"), ("unsafe", "Pointer")]

/-- `check_reflection_usage` of `check-anti-patterns.py`. -/
def check_reflection_usage (test_func : TestFunction) : List Issue :=
  let part1 := reflectionPatterns.flatMap (fun pm =>
    (find_function_calls test_func.body_node (.exactName pm.1) (some (.exactName pm.2))).map
      (fun c =>
        { file := test_func.fileStr, line := c.1.startRow + 1, test_name := test_func.name,
          issue := "Using reflection to access unexported fields couples test to implementation",
          category := "Anti-Patterns", severity := "High",
          pattern := c.2.1 ++ "." ++ c.2.2,
          code_snippet := get_code_snippet c.1.text,
          suggestion := "Test the public API only. If internal behavior needs testing, consider extracting it to a separate exported function or using test-only accessors",
          metrics := [] }))
  let part2 := (["Elem", "FieldByName", "SetString", "Set"] : List String).flatMap (fun method =>
    (find_function_calls test_func.body_node .anyName (some (.exactName method))).flatMap
      (fun c =>
        if method == "Elem" || method == "FieldByName" then
          [{ file := test_func.fileStr, line := c.1.startRow + 1, test_name := test_func.name,
             issue := "Using reflection to access unexported fields couples test to implementation",
             category := "Anti-Patterns", severity := "High",
             pattern := "." ++ c.2.2,
             code_snippet := get_code_snippet c.1.text,
             suggestion := "Test the public API only. If internal behavior needs testing, consider extracting it to a separate exported function or using test-only accessors",
             metrics := [] }]
        else []))
  part1 ++ part2

/-- `check_assertion_count` of `check-anti-patterns.py`. -/
def check_assertion_count (test_func : TestFunction) : List Issue :=
  let assertion_count := count_assertions test_func.body_node
  if assertion_count > 5 then
    [{ file := test_func.fileStr, line := test_func.start_line, test_name := test_func.name,
       issue := "Test has " ++ toString assertion_count ++ " assertions (>5 suggests testing multiple behaviors)",
       category := "Anti-Patterns", severity := "Medium", pattern := "assert.|require.",
       code_snippet := "Multiple assertions in single test",
       suggestion := "Split into multiple focused tests with one assertion each, or group related assertions by behavior. Multiple assertions make failures harder to diagnose",
       metrics := [("assertion_count", assertion_count)] }]
  else []

/-- `check_missing_cleanup` of `check-anti-patterns.py`.  The defer-text
regex `(Unsetenv|Setenv|Cleanup)` is a plain alternation of literals, so
`re.search` is substring containment of one of them. -/
def check_missing_cleanup (test_func : TestFunction) : List Issue :=
  let setenv_calls := find_function_calls test_func.body_node (.exactName "os") (some (.exactName "Setenv"))
  let t_setenv_calls := find_function_calls test_func.body_node (.exactName "t") (some (.exactName "Setenv"))
  if !t_setenv_calls.isEmpty then []
  else
    let defer_nodes := find_defer_statements test_func.body_node
    let has_cleanup := defer_nodes.any (fun d =>
      strContainsSub d.text "Unsetenv" || strContainsSub d.text "Setenv"
        || strContainsSub d.text "Cleanup")
    if !has_cleanup then
      setenv_calls.map (fun c =>
        { file := test_func.fileStr, line := c.1.startRow + 1, test_name := test_func.name,
          issue := "os.Setenv without cleanup can pollute test environment",
          category := "Anti-Patterns", severity := "Medium", pattern := "os.Setenv",
          code_snippet := get_code_snippet c.1.text,
          suggestion := "Use t.Setenv() (Go 1.17+) which automatically cleans up, or add: defer os.Unsetenv(\"VAR_NAME\")",
          metrics := [] })
    else []

/-- The Issue built by `check_global_state` at the parent node of a
matching `@var` capture. -/
def gsIssueOf (test_func : TestFunction) (parent : Node) : Issue :=
  { file := test_func.fileStr, line := parent.startRow + 1, test_name := test_func.name,
    issue := "Modifying package-level variable can cause test interdependencies",
    category := "Anti-Patterns", severity := "Medium", pattern := "global state",
    code_snippet := get_code_snippet parent.text,
    suggestion := "Use test-scoped variables or pass state through function parameters. If global state is necessary, ensure proper cleanup with defer or t.Cleanup()",
    metrics := [] }

/-- The capture loop of `check_global_state`: walk the (already truncated)
capture list; on a `@var` capture whose text matches the all-caps regex,
emit one issue at the capture's parent and stop (`break`); when such a
capture has no parent, or for any other capture, continue. -/
def gsScan (test_func : TestFunction) : List GsCap → List Issue
  | [] => []
  | c :: rest =>
    if c.capName == "var" && isGlobalVarName c.node.text then
      match c.parentNode with
      | some p => [gsIssueOf test_func p]
      | none => gsScan test_func rest
    else gsScan test_func rest

/-- `check_global_state` of `check-anti-patterns.py`: scan at most the
first 20 entries of the assignment query's flat capture list
(`assignments[:20]`), reporting at most once per test. -/
def check_global_state (test_func : TestFunction) : List Issue :=
  gsScan test_func ((assignmentCaptureList test_func.body_node).take 20)

/-- `check_missing_assertions` of `check-anti-patterns.py`. -/
def check_missing_assertions (test_func : TestFunction) : List Issue :=
  if "Benchmark".isPrefixOf test_func.name then []
  else
    let assertion_count := count_assertions test_func.body_node
    if assertion_count == 0 then
      (let has_skip := has_pattern_in_scope test_func.body_node (.exactName "t")
          (some (.startsWithName "Skip"))
       if !has_skip then
        [{ file := test_func.fileStr, line := test_func.start_line, test_name := test_func.name,
           issue := "Test function has no assertions (may be incomplete or not actually testing)",
           category := "Anti-Patterns", severity := "Medium", pattern := "no assertions",
           code_snippet := "func " ++ test_func.name,
           suggestion := "Add assertions to verify expected behavior, or add t.Skip() if the test is intentionally incomplete",
           metrics := [] }]
       else [])
    else []

/-- `check_long_functions` of `check-complexity.py`.  `line_count` is
`end_line - start_line`, both lines coming from the body block's rows. -/
def check_long_functions (test_func : TestFunction) : List Issue :=
  let line_count := test_func.end_line - test_func.start_line
  if line_count > 100 then
    let mock_count := count_mock_objects test_func.body_node
    let control_flow_count := count_control_flow_statements test_func.body_node
    [{ file := test_func.fileStr, line := test_func.start_line, test_name := test_func.name,
       issue := "Test function is " ++ toString line_count ++ " lines (exceeds 100-line guideline)",
       category := "Test Complexity", severity := "High", pattern := "complexity",
       code_snippet := "func " ++ test_func.name ++ "(...) \x7b ... \x7d",
       suggestion := "Split into multiple focused tests, extract setup to helpers, or use table-driven tests to reduce duplication",
       metrics := [("total_lines", line_count), ("mock_count", mock_count),
                   ("control_flow_statements", control_flow_count)] }]
  else []

/-- `check_excessive_mocks` of `check-complexity.py`. -/
def check_excessive_mocks (test_func : TestFunction) : List Issue :=
  let mock_count := count_mock_objects test_func.body_node
  if mock_count > 4 then
    [{ file := test_func.fileStr, line := test_func.start_line, test_name := test_func.name,
       issue := "Test has " ++ toString mock_count ++ " mock objects (>4 suggests over-mocking)",
       category := "Test Complexity", severity := "High", pattern := "complexity",
       code_snippet := "Multiple mock objects created",
       suggestion := "Consider using real objects when they\x27re simple, or inject fewer dependencies. Too many mocks couples tests to implementation details",
       metrics := [("mock_count", mock_count)] }]
  else []

/-- `check_complex_logic` of `check-complexity.py`. -/
def check_complex_logic (test_func : TestFunction) : List Issue :=
  let control_flow_count := count_control_flow_statements test_func.body_node
  if control_flow_count > 3 then
    [{ file := test_func.fileStr, line := test_func.start_line, test_name := test_func.name,
       issue := "Test has " ++ toString control_flow_count ++ " control flow statements (>3 indicates complex logic)",
       category := "Test Complexity", severity := "Medium", pattern := "complexity",
       code_snippet := "Multiple for/if/switch statements",
       suggestion := "Tests should be simple and linear. Consider using table-driven tests or splitting into multiple focused tests",
       metrics := [("control_flow_statements", control_flow_count)] }]
  else []

/-- `check_test_names` of `check-complexity.py`: the loop breaks after the
first matching pattern, and the built issue does not depend on which
pattern matched, so the result is one issue when any of the five name
regexes matches. -/
def check_test_names (test_func : TestFunction) : List Issue :=
  if isPoorTestName test_func.name then
    [{ file := test_func.fileStr, line := test_func.start_line, test_name := test_func.name,
       issue := "Test name \x27" ++ test_func.name ++ "\x27 is too generic and doesn\x27t describe behavior",
       category := "Test Complexity", severity := "Medium", pattern := "complexity",
       code_snippet := test_func.name,
       suggestion := "Use descriptive names that explain what\x27s being tested, e.g., TestUserCreationWithInvalidEmail, TestHandlerReturns404ForMissingResource",
       metrics := [] }]
  else []

/-- `check_time_sleep` of `check-external-deps.py`. -/
def check_time_sleep (test_func : TestFunction) : List Issue :=
  (find_function_calls test_func.body_node (.exactName "time") (some (.exactName "Sleep"))).map
    (fun c =>
      { file := test_func.fileStr, line := c.1.startRow + 1, test_name := test_func.name,
        issue := "time.Sleep makes test slow and timing-dependent (flaky)",
        category := "External Dependency", severity := "Critical", pattern := "time.Sleep",
        code_snippet := get_code_snippet c.1.text,
        suggestion := "Use channels, sync.WaitGroup, or require.Eventually for deterministic synchronization instead of sleeping",
        metrics := [] })

/-- `check_database_connections` of `check-external-deps.py`: `sql.Open`
calls, then `gorm.*` calls, then the string-literal scan for connection
schemes, in that order. -/
def check_database_connections (test_func : TestFunction) : List Issue :=
  let sql_issues :=
    (find_function_calls test_func.body_node (.exactName "sql") (some (.exactName "Open"))).map
      (fun c =>
        { file := test_func.fileStr, line := c.1.startRow + 1, test_name := test_func.name,
          issue := "Real database connection in test makes it slow and environment-dependent",
          category := "External Dependency", severity := "Critical", pattern := "sql.Open",
          code_snippet := get_code_snippet c.1.text,
          suggestion := "Use a mock database, sqlmock, or test containers for integration tests. Unit tests should mock the database layer",
          metrics := [] })
  let gorm_issues :=
    (find_function_calls test_func.body_node (.exactName "gorm") none).map
      (fun c =>
        { file := test_func.fileStr, line := c.1.startRow + 1, test_name := test_func.name,
          issue := "Real database connection in test makes it slow and environment-dependent",
          category := "External Dependency", severity := "Critical",
          pattern := "gorm." ++ c.2.2,
          code_snippet := get_code_snippet c.1.text,
          suggestion := "Use a mock database, sqlmock, or test containers for integration tests. Unit tests should mock the database layer",
          metrics := [] })
  let string_issues :=
    (stringLiteralCaptures test_func.body_node).filterMap (fun n =>
      if hasDbScheme n.text then
        some
          { file := test_func.fileStr, line := n.startRow + 1, test_name := test_func.name,
            issue := "Real database connection in test makes it slow and environment-dependent",
            category := "External Dependency", severity := "Critical",
            pattern := "postgres://|mysql://",
            code_snippet := get_code_snippet n.text,
            suggestion := "Use a mock database, sqlmock, or test containers for integration tests. Unit tests should mock the database layer",
            metrics := [] }
      else none)
  sql_issues ++ gorm_issues ++ string_issues

/-- Match the `http.X{}` composite-literal query of
`check_http_calls` / `check_web_servers`: a `composite_literal` whose
`type` field is the selector `http.typeName`.  Returns the `@pkg` and
`@type` captures. -/
def httpCompositeMatch (typeName : String) (n : Node) : Option (Node × Node) :=
  if n.kind = .composite_literal then
    match n.childField "type" with
    | some ty =>
      if ty.kind = .selector_expression then
        match ty.childField "operand", ty.childField "field" with
        | some pkg, some fld =>
          if pkg.kind = .identifier ∧ fld.kind = .field_identifier
              ∧ pkg.text = "http" ∧ fld.text = typeName then some (pkg, fld)
          else none
        | some _, none => none
        | none, _ => none
      else none
    | none => none
  else none

/-- Flat capture list of an `http.X{}` composite query: each match carries
`@pkg`, `@type` and the whole-literal capture (`@client` or `@server`). -/
def httpCompositeCaptureList (typeName capName : String) (b : Node) : List (Node × String) :=
  (collectAll b).flatMap (fun n =>
    match httpCompositeMatch typeName n with
    | some (pkg, fld) => [(pkg, "pkg"), (fld, "type"), (n, capName)]
    | none => [])

/-- The HTTP method names scanned by `check_http_calls`. -/
def httpMethods : List String := ["Get", "Post", "Put", "Delete", "Do", "Head", "NewRequest"]

/-- `check_http_calls` of `check-external-deps.py`.  The script iterates
over every entry of the composite query's flat capture list, so each
`http.Client{}` literal yields one issue per capture. -/
def check_http_calls (test_func : TestFunction) : List Issue :=
  let uses_httptest := has_pattern_in_scope test_func.body_node (.exactName "httptest") none
  if uses_httptest then []
  else
    let part1 := httpMethods.flatMap (fun m =>
      (find_function_calls test_func.body_node (.exactName "http") (some (.exactName m))).map
        (fun c =>
          { file := test_func.fileStr, line := c.1.startRow + 1, test_name := test_func.name,
            issue := "Real HTTP call to external server makes test slow, flaky, and network-dependent",
            category := "External Dependency", severity := "Critical",
            pattern := "http." ++ c.2.2,
            code_snippet := get_code_snippet c.1.text,
            suggestion := "Use httptest.Server to create a test HTTP server, or inject a mock HTTP client",
            metrics := [] }))
    let part2 := (httpCompositeCaptureList "Client" "client" test_func.body_node).map
      (fun nc =>
        { file := test_func.fileStr, line := nc.1.startRow + 1, test_name := test_func.name,
          issue := "Real HTTP call to external server makes test slow, flaky, and network-dependent",
          category := "External Dependency", severity := "Critical", pattern := "http.Client",
          code_snippet := get_code_snippet nc.1.text,
          suggestion := "Use httptest.Server to create a test HTTP server, or inject a mock HTTP client",
          metrics := [] })
    part1 ++ part2

/-- `check_web_servers` of `check-external-deps.py`. -/
def check_web_servers (test_func : TestFunction) : List Issue :=
  let part1 :=
    (find_function_calls test_func.body_node .anyName (some (.exactName "ListenAndServe"))).map
      (fun c =>
        { file := test_func.fileStr, line := c.1.startRow + 1, test_name := test_func.name,
          issue := "Starting real web server in test creates port conflicts and slow tests",
          category := "External Dependency", severity := "Critical", pattern := "ListenAndServe",
          code_snippet := get_code_snippet c.1.text,
          suggestion := "Use httptest.Server which automatically picks an available port and shuts down cleanly",
          metrics := [] })
  let part2 := (httpCompositeCaptureList "Server" "server" test_func.body_node).map
    (fun nc =>
      { file := test_func.fileStr, line := nc.1.startRow + 1, test_name := test_func.name,
        issue := "Starting real web server in test creates port conflicts and slow tests",
        category := "External Dependency", severity := "Critical", pattern := "http.Server",
        code_snippet := get_code_snippet nc.1.text,
        suggestion := "Use httptest.Server which automatically picks an available port and shuts down cleanly",
        metrics := [] })
  part1 ++ part2

/-- The `(package, method)` pairs of `io_patterns` in `check_file_io`. -/
def ioPatterns : List (String × String) :=
  [("os", "Create"), ("os", "Open"), ("os", "ReadFile"), ("ioutil", "ReadFile"),
   ("os", "WriteFile"), ("ioutil", "WriteFile")]

/-- `check_file_io` of `check-external-deps.py`: the severity and
suggestion are computed from `uses_tempdir`, but an issue is only appended
when `t.TempDir` is not used. -/
def check_file_io (test_func : TestFunction) : List Issue :=
  let uses_tempdir := has_pattern_in_scope test_func.body_node (.exactName "t")
    (some (.exactName "TempDir"))
  ioPatterns.flatMap (fun pm =>
    (find_function_calls test_func.body_node (.exactName pm.1) (some (.exactName pm.2))).flatMap
      (fun c =>
        let severity := if !uses_tempdir then "High" else "Medium"
        let suggestion :=
          if !uses_tempdir then
            "Use t.TempDir() to create temporary directories that are automatically cleaned up after the test"
          else
            "Consider using t.TempDir() for better isolation in parallel tests"
        if !uses_tempdir then
          [{ file := test_func.fileStr, line := c.1.startRow + 1, test_name := test_func.name,
             issue := "File I/O in test may cause issues with parallel execution and cleanup",
             category := "External Dependency", severity := severity,
             pattern := c.2.1 ++ "." ++ c.2.2,
             code_snippet := get_code_snippet c.1.text,
             suggestion := suggestion,
             metrics := [] }]
        else []))

/-- `has_sync_waitgroup` of `check-flaky-patterns.py`. -/
def has_sync_waitgroup (body_node : Node) : Bool :=
  has_pattern_in_scope body_node (.exactName "sync") (some (.exactName "WaitGroup"))
    || has_pattern_in_scope body_node .anyName (some (.oneOfNames ["Wait", "Add", "Done"]))

/-- `check_unsynchronized_goroutines` of `check-flaky-patterns.py`. -/
def check_unsynchronized_goroutines (test_func : TestFunction) : List Issue :=
  let goroutines := find_goroutines test_func.body_node
  if goroutines.isEmpty then []
  else
    let has_waitgroup := has_sync_waitgroup test_func.body_node
    let has_channels := has_channel_usage test_func.body_node
    if !(has_waitgroup || has_channels) then
      goroutines.map (fun g =>
        { file := test_func.fileStr, line := g.startRow + 1, test_name := test_func.name,
          issue := "Goroutine spawned without synchronization (WaitGroup/channels)",
          category := "Flaky Tests", severity := "Critical", pattern := "go func(",
          code_snippet := get_code_snippet g.text,
          suggestion := "Use sync.WaitGroup to wait for goroutine completion, or use channels to receive results. Without synchronization, the test may finish before the goroutine completes",
          metrics := [] })
    else []

/-- `has_rand_seed` of `check-flaky-patterns.py`. -/
def has_rand_seed (body_node : Node) : Bool :=
  has_pattern_in_scope body_node (.exactName "rand") (some (.exactName "Seed"))
    || has_pattern_in_scope body_node (.exactName "rand") (some (.exactName "NewSource"))
    || has_pattern_in_scope body_node (.exactName "rand") (some (.exactName "New"))

/-- The method names scanned by `check_unseeded_random`. -/
def randMethods : List String :=
  ["Int", "Float", "Intn", "Float32", "Float64", "Int31", "Int63"]

/-- `check_unseeded_random` of `check-flaky-patterns.py`. -/
def check_unseeded_random (test_func : TestFunction) : List Issue :=
  let all_rand_calls := randMethods.flatMap (fun m =>
    find_function_calls test_func.body_node (.exactName "rand") (some (.exactName m)))
  if all_rand_calls.isEmpty then []
  else
    let has_seed := has_rand_seed test_func.body_node
    if !has_seed then
      all_rand_calls.map (fun c =>
        { file := test_func.fileStr, line := c.1.startRow + 1, test_name := test_func.name,
          issue := "Using rand without deterministic seed causes non-reproducible test failures",
          category := "Flaky Tests", severity := "High", pattern := "rand." ++ c.2.2,
          code_snippet := get_code_snippet c.1.text,
          suggestion := "Use rand.New(rand.NewSource(1)) with a fixed seed for reproducible random data in tests",
          metrics := [] })
    else []

/-- `check_time_dependencies` of `check-flaky-patterns.py`. -/
def check_time_dependencies (test_func : TestFunction) : List Issue :=
  (find_function_calls test_func.body_node (.exactName "time") (some (.exactName "Now"))).map
    (fun c =>
      { file := test_func.fileStr, line := c.1.startRow + 1, test_name := test_func.name,
        issue := "Using time.Now() without mocking makes test time-dependent",
        category := "Flaky Tests", severity := "High", pattern := "time.Now",
        code_snippet := get_code_snippet c.1.text,
        suggestion := "Inject a clock interface or use a fixed time in tests. Consider using a library like github.com/benbjohnson/clock for testable time",
        metrics := [] })

/-- `is_eventually_assertion` of `check-flaky-patterns.py`:
`re.search(r'(require|assert)\.Eventually', text)`. -/
def is_eventually_assertion (text : String) : Bool :=
  strContainsSub text "require.Eventually" || strContainsSub text "assert.Eventually"

/-- The `(package, method)` pairs of `timeout_patterns` in
`check_hardcoded_timeouts`. -/
def timeoutPatterns : List (String × String) := [("context", "WithTimeout"), ("time", "After")]

/-- `check_hardcoded_timeouts` of `check-flaky-patterns.py`. -/
def check_hardcoded_timeouts (test_func : TestFunction) : List Issue :=
  timeoutPatterns.flatMap (fun pm =>
    (find_function_calls test_func.body_node (.exactName pm.1) (some (.exactName pm.2))).flatMap
      (fun c =>
        if is_eventually_assertion c.1.text then []
        else if hasNumericTimeoutText c.1.text then
          [{ file := test_func.fileStr, line := c.1.startRow + 1, test_name := test_func.name,
             issue := "Hardcoded timeout duration may be too short on slow CI machines",
             category := "Flaky Tests", severity := "High",
             pattern := c.2.1 ++ "." ++ c.2.2,
             code_snippet := get_code_snippet c.1.text,
             suggestion := "Use generous timeouts (5-10 seconds) or environment-configurable timeouts. Tests should fail on logic errors, not slow machines",
             metrics := [] }]
        else []))

/-- The per-unit rule set of `check-anti-patterns.py`'s `analyze_file`. -/
def analyze_unit_anti (u : TestFunction) : List Issue :=
  check_reflection_usage u ++ check_assertion_count u ++ check_missing_cleanup u
    ++ check_global_state u ++ check_missing_assertions u

/-- The per-unit rule set of `check-complexity.py`'s `analyze_file`. -/
def analyze_unit_complexity (u : TestFunction) : List Issue :=
  check_long_functions u ++ check_excessive_mocks u ++ check_complex_logic u
    ++ check_test_names u

/-- The per-unit rule set of `check-external-deps.py`'s `analyze_file`. -/
def analyze_unit_deps (u : TestFunction) : List Issue :=
  check_time_sleep u ++ check_database_connections u ++ check_http_calls u
    ++ check_web_servers u ++ check_file_io u

/-- The per-unit rule set of `check-flaky-patterns.py`'s `analyze_file`. -/
def analyze_unit_flaky (u : TestFunction) : List Issue :=
  check_unsynchronized_goroutines u ++ check_unseeded_random u
    ++ check_time_dependencies u ++ check_hardcoded_timeouts u

/-- `find_test_functions` of `test_quality_common.py`: the matches of
`TEST_FUNCTIONS_QUERY` (a `function_declaration` whose `name` identifier
matches `^Test`, with `parameters` and `body` fields), one `TestFunction`
per match.  The script zips the per-name capture lists of
`QueryCursor.captures`; those lists carry one entry per match in match
order, so the zip pairs each name with the body of the same declaration,
as modelled here.  `start_line`/`end_line` are the body block's rows plus
one. -/
def find_test_functions (tree : Node) (fileStr : String) : List TestFunction :=
  (collectAll tree).filterMap (fun n =>
    if n.kind = .function_declaration then
      match n.childField "name", n.childField "parameters", n.childField "body" with
      | some nm, some ps, some bd =>
        if nm.kind = .identifier ∧ ps.kind = .parameter_list ∧ bd.kind = .block
            ∧ "Test".isPrefixOf nm.text then
          some { name := nm.text, start_line := bd.startRow + 1, end_line := bd.endRow + 1,
                 body_node := bd, fileStr := fileStr }
        else none
      | some _, some _, none => none
      | some _, none, _ => none
      | none, _, _ => none
    else none)

/-- One discovered source file: its path (as the display string used in
issues) and the result of `parse_go_file` (`none` models a parse
failure, the script's `tree is None`). -/
structure GoFile where
  path : String
  parsed : Option Node

/-- `analyze_file` of `check-anti-patterns.py`. -/
def analyze_file_anti (f : GoFile) : List Issue :=
  match f.parsed with
  | none => []
  | some tree => (find_test_functions tree f.path).flatMap analyze_unit_anti

/-- `analyze_file` of `check-complexity.py`. -/
def analyze_file_complexity (f : GoFile) : List Issue :=
  match f.parsed with
  | none => []
  | some tree => (find_test_functions tree f.path).flatMap analyze_unit_complexity

/-- `analyze_file` of `check-external-deps.py`. -/
def analyze_file_deps (f : GoFile) : List Issue :=
  match f.parsed with
  | none => []
  | some tree => (find_test_functions tree f.path).flatMap analyze_unit_deps

/-- `analyze_file` of `check-flaky-patterns.py`. -/
def analyze_file_flaky (f : GoFile) : List Issue :=
  match f.parsed with
  | none => []
  | some tree => (find_test_functions tree f.path).flatMap analyze_unit_flaky

/-- Path order used by `find_test_files` (`sorted(...)` over paths). -/
def goFileLe (a b : GoFile) : Prop := a.path ≤ b.path

instance : DecidableRel goFileLe := fun a b => inferInstanceAs (Decidable (a.path ≤ b.path))

/-- `find_test_files` of `test_quality_common.py`: the files whose name
matches the `*_test.go` convention, sorted by path.  Only regular files
are modelled, so the `p.is_file()` filter is identity here. -/
def find_test_files (files : List GoFile) : List GoFile :=
  List.insertionSort goFileLe (files.filter (fun f => f.path.endsWith "_test.go"))

/-- The `(file, line)` sort key order of `all_issues.sort(key=lambda i:
(i.file, i.line))`. -/
def issueLe (a b : Issue) : Prop :=
  a.file < b.file ∨ (a.file = b.file ∧ a.line ≤ b.line)

instance : DecidableRel issueLe := fun a b =>
  inferInstanceAs (Decidable (a.file < b.file ∨ (a.file = b.file ∧ a.line ≤ b.line)))

instance : IsTotal Issue issueLe :=
  ⟨by
    intro a b
    rcases lt_trichotomy a.file b.file with h | h | h
    · exact Or.inl (Or.inl h)
    · rcases Nat.le_total a.line b.line with h2 | h2
      · exact Or.inl (Or.inr ⟨h, h2⟩)
      · exact Or.inr (Or.inr ⟨h.symm, h2⟩)
    · exact Or.inr (Or.inl h)⟩

instance : IsTrans Issue issueLe :=
  ⟨by
    intro a b c hab hbc
    rcases hab with hab | ⟨hab, hab2⟩
    · rcases hbc with hbc | ⟨hbc, _⟩
      · exact Or.inl (lt_trans hab hbc)
      · exact Or.inl (hbc ▸ hab)
    · rcases hbc with hbc | ⟨hbc, hbc2⟩
      · exact Or.inl (hab ▸ hbc)
      · exact Or.inr ⟨hab.trans hbc, le_trans hab2 hbc2⟩⟩

/-- `all_issues.sort(key=lambda i: (i.file, i.line))`. -/
def sort_issues (l : List Issue) : List Issue := List.insertionSort issueLe l

/-- Filter of the global-state cap: `i.pattern == "global state"`. -/
def isGsPattern (i : Issue) : Bool := i.pattern == "global state"

/-- Filter of the no-assertions cap: `i.pattern == "no assertions"`. -/
def isNaPattern (i : Issue) : Bool := i.pattern == "no assertions"

/-- The aggregation of `check-anti-patterns.py`'s `main` after all issues
are collected: sort by `(file, line)`, cap global-state issues at the
first 20 of the sorted order, cap no-assertions issues at the first 30,
then sort again. -/
def agg_anti_patterns (all_issues : List Issue) : List Issue :=
  let sorted := sort_issues all_issues
  let global_state_issues := sorted.filter isGsPattern
  let other_issues := sorted.filter (fun i => !isGsPattern i)
  let issues2 := other_issues ++ global_state_issues.take 20
  let no_assertion_issues := issues2.filter isNaPattern
  let other_issues2 := issues2.filter (fun i => !isNaPattern i)
  let issues3 := other_issues2 ++ no_assertion_issues.take 30
  sort_issues issues3

/-- Filter of the time-now cap of `check-flaky-patterns.py`:
`i.pattern == "time.Now"`. -/
def isTimeNowPattern (i : Issue) : Bool := i.pattern == "time.Now"

/-- Filter of the timeout cap of `check-flaky-patterns.py`:
`"WithTimeout" in i.pattern or "After" in i.pattern`. -/
def isTimeoutPattern (i : Issue) : Bool :=
  strContainsSub i.pattern "WithTimeout" || strContainsSub i.pattern "After"

/-- The aggregation of `check-flaky-patterns.py`'s `main`: sort, cap
time-now issues at 20, cap timeout issues at 15 (the script removes the
capped ones by list membership, `i not in timeout_issues`), sort again. -/
def agg_flaky (all_issues : List Issue) : List Issue :=
  let sorted := sort_issues all_issues
  let time_now_issues := sorted.filter isTimeNowPattern
  let other_issues := sorted.filter (fun i => !isTimeNowPattern i)
  let issues2 := other_issues ++ time_now_issues.take 20
  let timeout_issues := issues2.filter isTimeoutPattern
  let other_issues2 := issues2.filter (fun i => !(timeout_issues.contains i))
  let issues3 := other_issues2 ++ timeout_issues.take 15
  sort_issues issues3

/-- The `summary` object of `build_json_output`. -/
structure Summary where
  total_issues : Nat
  critical_count : Nat
  high_count : Nat
  medium_count : Nat
  files_with_issues : Nat
  deriving DecidableEq, Repr

/-- The JSON document shape of `build_json_output` (before rendering). -/
structure Report where
  script : String
  issues : List Issue
  summary : Summary
  deriving DecidableEq, Repr

/-- `build_json_output` of `test_quality_common.py`: severity counts,
distinct-file count, and the output structure. -/
def build_json_output (script_name : String) (issues : List Issue) : Report :=
  let critical := (issues.filter (fun i => i.severity == "Critical")).length
  let high := (issues.filter (fun i => i.severity == "High")).length
  let medium := (issues.filter (fun i => i.severity == "Medium")).length
  let unique_files := ((issues.map (fun i => i.file)).dedup).length
  { script := script_name, issues := issues,
    summary := { total_issues := issues.length, critical_count := critical,
                 high_count := high, medium_count := medium,
                 files_with_issues := unique_files } }

/-- JSON string escaping for the rendered report. -/
def jsonEscapeChar (c : Char) : String :=
  if c = '\\' then "\\\\"
  else if c = '"' then "\\\""
  else if c = '\n' then "\\n"
  else if c = '\t' then "\\t"
  else if c = '\r' then "\\r"
  else String.singleton c

/-- Escape every character of a string for JSON. -/
def jsonEscape (s : String) : String := String.join (s.data.map jsonEscapeChar)

/-- A JSON string literal. -/
def jsonStr (s : String) : String := "\"" ++ jsonEscape s ++ "\""

/-- Render the `metrics` mapping as a JSON object. -/
def render_metrics (ms : List (String × Nat)) : String :=
  "\x7b" ++ String.intercalate ", " (ms.map (fun kv => jsonStr kv.1 ++ ": " ++ toString kv.2))
    ++ "\x7d"

/-- Render one issue as a JSON object, fields in dataclass order (the
order `asdict` and `json.dumps` preserve). -/
def render_issue (i : Issue) : String :=
  "\x7b" ++ jsonStr "file" ++ ": " ++ jsonStr i.file
    ++ ", " ++ jsonStr "line" ++ ": " ++ toString i.line
    ++ ", " ++ jsonStr "test_name" ++ ": " ++ jsonStr i.test_name
    ++ ", " ++ jsonStr "issue" ++ ": " ++ jsonStr i.issue
    ++ ", " ++ jsonStr "category" ++ ": " ++ jsonStr i.category
    ++ ", " ++ jsonStr "severity" ++ ": " ++ jsonStr i.severity
    ++ ", " ++ jsonStr "pattern" ++ ": " ++ jsonStr i.pattern
    ++ ", " ++ jsonStr "code_snippet" ++ ": " ++ jsonStr i.code_snippet
    ++ ", " ++ jsonStr "suggestion" ++ ": " ++ jsonStr i.suggestion
    ++ ", " ++ jsonStr "metrics" ++ ": " ++ render_metrics i.metrics
    ++ "\x7d"

/-- Render the whole report as a JSON document, keys in the insertion
order of `build_json_output` (whitespace details of `json.dumps(...,
indent=2)` are flattened; the rendering stays a function of the report, 
which is what the determinism property needs). -/
def render_report (r : Report) : String :=
  "\x7b" ++ jsonStr "script" ++ ": " ++ jsonStr r.script
    ++ ", " ++ jsonStr "issues" ++ ": [" ++ String.intercalate ", " (r.issues.map render_issue)
    ++ "], " ++ jsonStr "summary" ++ ": \x7b"
    ++ jsonStr "total_issues" ++ ": " ++ toString r.summary.total_issues
    ++ ", " ++ jsonStr "critical_count" ++ ": " ++ toString r.summary.critical_count
    ++ ", " ++ jsonStr "high_count" ++ ": " ++ toString r.summary.high_count
    ++ ", " ++ jsonStr "medium_count" ++ ": " ++ toString r.summary.medium_count
    ++ ", " ++ jsonStr "files_with_issues" ++ ": " ++ toString r.summary.files_with_issues
    ++ "\x7d\x7d"

/-- The input of a checker's `main`: whether the project root exists
(`project_root.exists()`) and the regular files under it. -/
structure RootInput where
  found : Bool
  files : List GoFile

/-- The shared shape of the four scripts' `main`: fail on a missing root,
emit an empty report when no test file matches, otherwise analyze every
test file in sorted order and aggregate.  Each script instantiates this
with its name, per-file analysis and aggregation. -/
def run_check (script_name : String) (analyze : GoFile → List Issue)
    (aggregate : List Issue → List Issue) (root : RootInput) : Except String Report :=
  if !root.found then
    .error "Project root does not exist"
  else
    let test_files := find_test_files root.files
    if test_files.isEmpty then .ok (build_json_output script_name [])
    else .ok (build_json_output script_name (aggregate (test_files.flatMap analyze)))

/-- `main` of `check-anti-patterns.py`. -/
def run_check_anti_patterns (root : RootInput) : Except String Report :=
  run_check "check-anti-patterns" analyze_file_anti agg_anti_patterns root

/-- `main` of `check-complexity.py` (its only aggregation is the sort). -/
def run_check_complexity (root : RootInput) : Except String Report :=
  run_check "check-complexity" analyze_file_complexity sort_issues root

/-- `main` of `check-external-deps.py` (its only aggregation is the
sort). -/
def run_check_external_deps (root : RootInput) : Except String Report :=
  run_check "check-external-deps" analyze_file_deps sort_issues root

/-- `main` of `check-flaky-patterns.py`. -/
def run_check_flaky_patterns (root : RootInput) : Except String Report :=
  run_check "check-flaky-patterns" analyze_file_flaky agg_flaky root

/-- What a checker process writes to stdout on a given input: the error
object on a missing root, the rendered report otherwise. -/
def render_run : Except String Report → String
  | .error e => "\x7b\"error\": \"Invalid path\", \"message\": " ++ jsonStr e ++ "\x7d"
  | .ok r => render_report r

/-- Modelled from the spec (claim C4's reading of the exclusion rule):
the number of control-flow constructs in scope where an `if` construct
whose *condition* text matches the idiomatic error-check shape is excluded
from the count entirely, each construct counted once. -/
def spec_count_control_flow (b : Node) : Nat :=
  ((collectAll b).filter (fun n =>
    n.kind == .for_statement || n.kind == .switch_statement || n.kind == .select_statement
      || (n.kind == .if_statement &&
            !(match n.childField "condition" with
              | some c => hasErrNilCheck c.text
              | none => false)))).length

/-- Local well-formedness of one parse-tree node: its span is ordered and
it contains the spans of its children.  Any tree produced by a parser
satisfies this at every node. -/
def nodeSpansOk (n : Node) : Prop :=
  n.startRow ≤ n.endRow ∧ ∀ c ∈ n.children, n.startRow ≤ c.startRow ∧ c.endRow ≤ n.endRow

instance (n : Node) : Decidable (nodeSpansOk n) := by
  unfold nodeSpansOk; infer_instance

/-- Well-formedness of a subtree: every node of the subtree is locally
well-formed. -/
def WFTree (b : Node) : Prop := ∀ n ∈ collectAll b, nodeSpansOk n

instance (b : Node) : Decidable (WFTree b) := by
  unfold WFTree; infer_instance

/-- The four severity strings of the data model (`Low/Info` is the fourth
value of the fixed set; the scripts of this repository emit the first
three). -/
def severitySet : List String := ["Critical", "High", "Medium", "Low/Info"]

/-- Location/severity soundness of one issue relative to its unit: the
line is the unit's start line or comes from a node of the unit's body, and
the severity is in the fixed four-value set. -/
def issueOk (u : TestFunction) (i : Issue) : Prop :=
  (i.line = u.start_line ∨ ∃ n ∈ collectAll u.body_node, i.line = n.startRow + 1)
  ∧ i.severity ∈ severitySet

/-- Fixture: a `pkg.meth(x)` qualified-call node on row `r`. -/
def fxSelCall (pkg meth : String) (r : Nat) : Node :=
  Node.mk .call_expression none (pkg ++ "." ++ meth ++ "(x)") r r
    [Node.mk .selector_expression (some "function") (pkg ++ "." ++ meth) r r
      [Node.mk .identifier (some "operand") pkg r r [],
       Node.mk .field_identifier (some "field") meth r r []],
     Node.mk .argument_list (some "arguments") "(x)" r r []]

/-- Fixture: a body block spanning rows 0 to `endR` with the given
statement children. -/
def fxBody (cs : List Node) (endR : Nat) : Node :=
  Node.mk .block (some "body") "\x7b ... \x7d" 0 endR cs

/-- Fixture: the test unit an extractor would build for a body. -/
def fxUnit (b : Node) : TestFunction :=
  { name := "TestSomething", start_line := b.startRow + 1, end_line := b.endRow + 1,
    body_node := b, fileStr := "a_test.go" }

/-- Fixture: a body containing exactly five `assert.Equal(...)` calls. -/
def b5 : Node := fxBody ((List.range 5).map (fun i => fxSelCall "assert" "Equal" (i + 1))) 6

/-- Fixture: the unit over `b5`. -/
def u5 : TestFunction := fxUnit b5

/-- Fixture: an `if` statement with the given condition text on row `r`. -/
def fxIf (cond : String) (r : Nat) : Node :=
  Node.mk .if_statement none ("if " ++ cond ++ " \x7b t.Fail() \x7d") r r
    [Node.mk .other_node (some "condition") cond r r [],
     Node.mk .block (some "consequence") "\x7b t.Fail() \x7d" r r []]

/-- Fixture: a body containing exactly four idiomatic `if err != nil`
error checks and no other control flow. -/
def bIf4 : Node := fxBody ((List.range 4).map (fun i => fxIf "err != nil" (i + 1))) 6

/-- Fixture: the unit over `bIf4`. -/
def uIf4 : TestFunction := fxUnit bIf4

/-- Fixture: a `go func(){}()` statement on row `r`. -/
def fxGo (r : Nat) : Node :=
  Node.mk .go_statement none "go func() \x7b \x7d()" r r
    [Node.mk .call_expression none "func() \x7b \x7d()" r r []]

/-- Fixture: a body with two goroutine launches and no synchronization. -/
def bGo : Node := fxBody [fxGo 1, fxGo 2] 4

/-- Fixture: the unit over `bGo`. -/
def uGo : TestFunction := fxUnit bGo

/-- Fixture: a body with a goroutine launch and a channel receive. -/
def bGoRecv : Node := fxBody [fxGo 1, Node.mk .receive_statement none "<-done" 2 2 []] 4

/-- Fixture: the unit over `bGoRecv`. -/
def uGoRecv : TestFunction := fxUnit bGoRecv

/-- Fixture: an interpreted string literal node on row `r`. -/
def fxStr (t : String) (r : Nat) : Node := Node.mk .interpreted_string_literal none t r r []

/-- Fixture: a body containing a connection-string literal, a harmless
literal, and a `//` comment holding the same connection string. -/
def bStr : Node := fxBody [fxStr "\"postgres://user@host/db\"" 2, fxStr "\"hello\"" 3,
  Node.mk .comment none "// postgres://user@host/db" 4 4 []] 5

/-- Fixture: the unit over `bStr`. -/
def uStr : TestFunction := fxUnit bStr

/-- Fixture: a unit whose body line span (`end_line - start_line`) is
exactly 100. -/
def uLong100 : TestFunction := fxUnit (fxBody [] 100)

/-- Fixture: a unit whose body line span is exactly 101. -/
def uLong101 : TestFunction := fxUnit (fxBody [] 101)

/-- Fixture: an assignment statement `v = 1` on row `r`. -/
def fxAssign (v : String) (r : Nat) : Node :=
  Node.mk .assignment_statement none (v ++ " = 1") r r
    [Node.mk .expression_list (some "left") v r r [Node.mk .identifier none v r r []],
     Node.mk .expression_list (some "right") "1" r r []]

/-- Fixture: a body with two all-caps (global-looking) assignments. -/
def bGs : Node := fxBody [fxAssign "GLOBAL_X" 1, fxAssign "GLOBAL_Y" 2] 4

/-- Fixture: the unit over `bGs`. -/
def uGs : TestFunction := fxUnit bGs

/-- Fixture: a body with only a lowercase (local-looking) assignment. -/
def bGsNone : Node := fxBody [fxAssign "local" 1] 3

/-- Fixture: the unit over `bGsNone`. -/
def uGsNone : TestFunction := fxUnit bGsNone

/-- Fixture: one global-state issue at a given line of one file. -/
def fxGsIssue (l : Nat) : Issue :=
  { file := "b_test.go", line := l, test_name := "TestSomething",
    issue := "Modifying package-level variable can cause test interdependencies",
    category := "Anti-Patterns", severity := "Medium", pattern := "global state",
    code_snippet := "GLOBAL_X = 1", suggestion := "Use test-scoped variables",
    metrics := [] }

/-- Fixture: 35 global-state issues arriving in descending line order (so
scan order and sorted order disagree). -/
def issues35 : List Issue := (List.range 35).map (fun i => fxGsIssue (35 - i))

/-- Fixture: an existing root whose only file does not match the
`*_test.go` convention. -/
def rootNoTests : RootInput :=
  { found := true, files := [{ path := "main.go", parsed := none }] }

/-- Structural induction principle for `Node` (the nested-inductive
recursor, stated over the children list). -/
theorem node_ind (P : Node → Prop)
    (h : ∀ k f t s e cs, (∀ c ∈ cs, P c) → P (Node.mk k f t s e cs)) :
    ∀ n, P n
  | .mk k f t s e cs => h k f t s e cs (fun c hc => node_ind P h c)
termination_by n => sizeOf n
decreasing_by
  simp only [Node.mk.sizeOf_spec]
  have := List.sizeOf_lt_of_mem hc
  omega

theorem collectAll_mk (k f t s e cs) :
    collectAll (Node.mk k f t s e cs) = Node.mk k f t s e cs :: collectAllL cs := by
  simp [collectAll]

theorem mem_collectAllL {n : Node} {cs : List Node} :
    n ∈ collectAllL cs ↔ ∃ c ∈ cs, n ∈ collectAll c := by
  induction cs with
  | nil => simp [collectAllL]
  | cons c cs ih => simp [collectAllL, ih]

theorem self_mem_collectAll (n : Node) : n ∈ collectAll n := by
  cases n with
  | mk k f t s e cs => rw [collectAll_mk]; exact List.mem_cons_self _ _

theorem collectAll_subset_of_mem {b n : Node} (hn : n ∈ collectAll b) :
    collectAll n ⊆ collectAll b := by
  induction b using node_ind with
  | h k f t s e cs ih =>
    rw [collectAll_mk] at hn ⊢
    rcases List.mem_cons.mp hn with h1 | h1
    · subst h1; rw [collectAll_mk]; exact fun x hx => hx
    · rcases mem_collectAllL.mp h1 with ⟨c, hc, hnc⟩
      intro x hx
      exact List.mem_cons_of_mem _ (mem_collectAllL.mpr ⟨c, hc, ih c hc hnc hx⟩)

theorem child_mem_collectAll {b n c : Node} (hn : n ∈ collectAll b)
    (hc : c ∈ n.children) : c ∈ collectAll b := by
  apply collectAll_subset_of_mem hn
  cases n with
  | mk k f t s e cs =>
    rw [collectAll_mk]
    exact List.mem_cons_of_mem _
      (mem_collectAllL.mpr ⟨c, hc, self_mem_collectAll c⟩)

/-- In a well-formed tree, every collected node's span is ordered and lies
inside the root's span. -/
theorem span_of_mem_collectAll {b : Node} (hwf : WFTree b) :
    ∀ n ∈ collectAll b,
      b.startRow ≤ n.startRow ∧ n.startRow ≤ n.endRow ∧ n.endRow ≤ b.endRow := by
  induction b using node_ind with
  | h k f t s e cs ih =>
    intro n hn
    rw [collectAll_mk] at hn
    rcases List.mem_cons.mp hn with h1 | h1
    · subst h1
      rcases hwf _ (self_mem_collectAll _) with ⟨hse, _⟩
      exact ⟨le_refl _, hse, le_refl _⟩
    · rcases mem_collectAllL.mp h1 with ⟨c, hc, hnc⟩
      have hcwf : WFTree c := by
        intro m hm
        apply hwf
        rw [collectAll_mk]
        exact List.mem_cons_of_mem _ (mem_collectAllL.mpr ⟨c, hc, hm⟩)
      have hbounds := ih c hc hcwf n hnc
      have hcchild := (hwf _ (self_mem_collectAll _)).2 c hc
      simp only [Node.children] at hcchild
      simp only [Node.startRow, Node.endRow] at *
      exact ⟨le_trans hcchild.1 hbounds.1, hbounds.2.1, le_trans hbounds.2.2 hcchild.2⟩

/-- Well-formedness restricts to any collected subtree. -/
theorem wf_of_mem_collectAll {b n : Node} (hwf : WFTree b) (hn : n ∈ collectAll b) :
    WFTree n := fun m hm => hwf m (collectAll_subset_of_mem hn hm)

theorem gsScan_length_le_one (u : TestFunction) (l : List GsCap) :
    (gsScan u l).length ≤ 1 := by
  induction l with
  | nil => simp [gsScan]
  | cons c rest ih =>
    simp only [gsScan]
    split
    · split
      · simp
      · exact ih
    · exact ih

theorem gsScan_eq_nil (u : TestFunction) (l : List GsCap)
    (h : ∀ c ∈ l, ¬(c.capName = "var" ∧ isGlobalVarName c.node.text = true)) :
    gsScan u l = [] := by
  induction l with
  | nil => simp [gsScan]
  | cons c rest ih =>
    have hc := h c (List.mem_cons_self _ _)
    have hcond : (c.capName == "var" && isGlobalVarName c.node.text) = false := by
      cases h1 : (c.capName == "var") with
      | false => simp
      | true =>
        cases h2 : isGlobalVarName c.node.text with
        | false => simp
        | true => exact absurd ⟨by simpa [beq_iff_eq] using h1, h2⟩ hc
    simp only [gsScan, hcond, Bool.false_eq_true, if_false]
    exact ih (fun d hd => h d (List.mem_cons_of_mem _ hd))

/-- C10: the global-state rule reports at most one Finding per test unit
(the loop breaks at the first all-caps left-hand identifier), and it
examines only the first 20 entries of the assignment capture list: when no
`@var` capture among those matches the all-caps shape, no Finding is
emitted no matter what follows. -/
theorem c10_global_state_at_most_one (u : TestFunction) :
    (check_global_state u).length ≤ 1 ∧
    ((∀ c ∈ (assignmentCaptureList u.body_node).take 20,
        ¬(c.capName = "var" ∧ isGlobalVarName c.node.text = true)) →
      check_global_state u = []) :=
  ⟨gsScan_length_le_one u _, fun h => gsScan_eq_nil u _ h⟩

/-- Witness for C10 at concrete units: a body with two all-caps
assignments still yields at most one finding, and a body whose first 20
captures contain no all-caps left-hand side yields none. -/
theorem c10_witness :
    (check_global_state uGs).length ≤ 1 ∧ check_global_state uGsNone = [] :=
  ⟨(c10_global_state_at_most_one uGs).1,
   (c10_global_state_at_most_one uGsNone).2 (by decide)⟩

/-- C3: a unit whose body line span (`end_line - start_line`, the
script's `line_count`) is exactly 100 gets no long-function Finding; at
exactly 101 it gets exactly one, High, with `metrics.total_lines = 101`
(the boundary is `> 100`). -/
theorem c3_long_function_boundary (u : TestFunction) :
    (u.end_line - u.start_line = 100 → check_long_functions u = []) ∧
    (u.end_line - u.start_line = 101 →
      (check_long_functions u).length = 1
        ∧ ∀ i ∈ check_long_functions u,
            i.metrics.lookup "total_lines" = some 101 ∧ i.severity = "High") := by
  constructor
  · intro h
    simp [check_long_functions, h]
  · intro h
    constructor
    · simp [check_long_functions, h]
    · intro i hi
      simp only [check_long_functions, h] at hi
      rw [if_pos (by norm_num)] at hi
      rw [List.mem_singleton] at hi
      subst hi
      exact ⟨by simp [List.lookup], rfl⟩

/-- Witness for C3 at concrete units of spans 100 and 101. -/
theorem c3_witness :
    uLong100.end_line - uLong100.start_line = 100 ∧
    uLong101.end_line - uLong101.start_line = 101 ∧
    check_long_functions uLong100 = [] ∧
    ((check_long_functions uLong101).length = 1
      ∧ ∀ i ∈ check_long_functions uLong101,
          i.metrics.lookup "total_lines" = some 101 ∧ i.severity = "High") :=
  ⟨by decide, by decide, (c3_long_function_boundary uLong100).1 (by decide),
   (c3_long_function_boundary uLong101).2 (by decide)⟩

/-- C2 (code bug): `count_assertions` returns the number of query
*captures*, not matched calls; the assertion query carries two captures
per match, so a body with exactly five `assert.X(...)` calls is counted
as 10 and `check_assertion_count` wrongly emits an excess-assertions
Finding (with `assertion_count = 10`) although only five assertion calls
are present — the claim's boundary (none at five calls, one Finding with
`assertion_count = 6` at six calls) does not hold of the code. -/
theorem c2_assertion_capture_doubling :
    count_assertions b5 = 10 ∧
    (check_assertion_count u5).length = 1 ∧
    (check_assertion_count u5).map Issue.metrics = [[("assertion_count", 10)]] := by
  decide

theorem length_filter_not_add {α : Type} (p : α → Bool) (l : List α) :
    (l.filter p).length + (l.filter (fun a => !p a)).length = l.length := by
  induction l with
  | nil => simp
  | cons a l ih => cases h : p a <;> simp [List.filter_cons, h] <;> omega

theorem umbrella_length (l : List Node) :
    (l.filter (fun n => isControlFlowKind n.kind)).length =
      (l.filter (fun n => n.kind == NodeKind.for_statement)).length
      + (l.filter (fun n => n.kind == NodeKind.if_statement)).length
      + (l.filter (fun n => n.kind == NodeKind.switch_statement)).length
      + (l.filter (fun n => n.kind == NodeKind.select_statement)).length := by
  induction l with
  | nil => simp
  | cons a l ih =>
    simp only [isControlFlowKind] at ih ⊢
    cases hk : a.kind <;> simp [List.filter_cons, hk] <;> omega

/-- C4 (amended): the control-flow query captures each construct both
under its kind-specific name and under the umbrella `@control_flow`
capture, and the `err != nil` textual exclusion (tested against the whole
if-statement's text) applies only to the kind-specific `if` captures; the
measured count is therefore `2 * (for + switch + select + non-error-check
ifs) + (error-check ifs)`, and the checker emits one Medium Finding,
carrying that count as a metric, exactly when the count exceeds 3. -/
theorem c4_control_flow_count_amended (u : TestFunction) :
    (count_control_flow_statements u.body_node =
      2 * ((controlFlowNodesOf u.body_node .for_statement).length
            + (controlFlowNodesOf u.body_node .switch_statement).length
            + (controlFlowNodesOf u.body_node .select_statement).length
            + ((controlFlowNodesOf u.body_node .if_statement).filter
                 (fun n => !hasErrNilCheck n.text)).length)
        + ((controlFlowNodesOf u.body_node .if_statement).filter
             (fun n => hasErrNilCheck n.text)).length) ∧
    (check_complex_logic u ≠ [] ↔ 3 < count_control_flow_statements u.body_node) ∧
    (∀ i ∈ check_complex_logic u,
        i.severity = "Medium" ∧
        i.metrics = [("control_flow_statements", count_control_flow_statements u.body_node)]) := by
  refine ⟨?_, ?_, ?_⟩
  · have h1 := umbrella_length (collectAll u.body_node)
    have h2 := length_filter_not_add (fun n => hasErrNilCheck n.text)
      ((collectAll u.body_node).filter (fun n => n.kind == NodeKind.if_statement))
    unfold count_control_flow_statements controlFlowNodesOf at *
    omega
  · by_cases h : 3 < count_control_flow_statements u.body_node
    · simp [check_complex_logic, h]
    · simp [check_complex_logic, h]
  · intro i hi
    by_cases h : 3 < count_control_flow_statements u.body_node
    · simp [check_complex_logic, h] at hi
      subst hi
      exact ⟨rfl, rfl⟩
    · simp [check_complex_logic, h] at hi

/-- Counterexample for C4: a body holding exactly four `if err != nil`
checks and no other control flow.  Under the claim every one of them is
excluded, so the count would be 0 and no Finding would be emitted; the
code counts each once through the umbrella capture, measures 4, and emits
a complexity Finding. -/
theorem c4_counterexample :
    spec_count_control_flow bIf4 = 0 ∧
    count_control_flow_statements bIf4 = 4 ∧
    check_complex_logic uIf4 ≠ [] := by
  refine ⟨by decide, by decide, ?_⟩
  decide

/-- Witness for C4's amended theorem at the concrete unit `uIf4`. -/
theorem c4_witness : check_complex_logic uIf4 ≠ [] :=
  ((c4_control_flow_count_amended uIf4).2.1).mpr (by decide)

/-- C5: a unit with goroutine launches and no synchronization in scope
(no wait-group-like call, no channel-like construct) gets exactly one
Critical flaky Finding per launch site; a channel receive construct
anywhere in the body scope suppresses all of them. -/
theorem c5_unsynchronized_goroutines (u : TestFunction) :
    (has_sync_waitgroup u.body_node = false → has_channel_usage u.body_node = false →
      (check_unsynchronized_goroutines u).length = (find_goroutines u.body_node).length
      ∧ ∀ i ∈ check_unsynchronized_goroutines u,
          i.severity = "Critical" ∧ i.category = "Flaky Tests")
    ∧ ((collectAll u.body_node).any (fun n => n.kind == NodeKind.receive_statement) = true →
        check_unsynchronized_goroutines u = []) := by
  constructor
  · intro hw hc
    by_cases hg : (find_goroutines u.body_node).isEmpty
    · have h0 : find_goroutines u.body_node = [] := List.isEmpty_iff.mp hg
      constructor
      · simp [check_unsynchronized_goroutines, hg, h0]
      · intro i hi
        simp [check_unsynchronized_goroutines, hg] at hi
    · constructor
      · simp [check_unsynchronized_goroutines, hg, hw, hc]
      · intro i hi
        simp [check_unsynchronized_goroutines, hg, hw, hc] at hi
        obtain ⟨g, _hm, hge⟩ := hi
        subst hge
        exact ⟨rfl, rfl⟩
  · intro hrecv
    rcases List.any_eq_true.mp hrecv with ⟨n, hn, hkind⟩
    have hmem : (n, "receive") ∈ channelCaptureList u.body_node := by
      unfold channelCaptureList
      apply List.mem_flatMap.mpr
      refine ⟨n, hn, ?_⟩
      apply List.mem_append.mpr
      right
      rw [hkind]
      simp
    have hne : channelCaptureList u.body_node ≠ [] := by
      intro h
      rw [h] at hmem
      exact absurd hmem (List.not_mem_nil _)
    have hcu : has_channel_usage u.body_node = true := by
      unfold has_channel_usage
      cases h : (channelCaptureList u.body_node).isEmpty with
      | true => exact absurd (List.isEmpty_iff.mp h) hne
      | false => rfl
    by_cases hg : (find_goroutines u.body_node).isEmpty
    · simp [check_unsynchronized_goroutines, hg]
    · simp [check_unsynchronized_goroutines, hg, hcu]

/-- Witness for C5 at concrete units: two unsynchronized launches yield
two findings; a receive in scope suppresses them. -/
theorem c5_witness :
    has_sync_waitgroup bGo = false ∧ has_channel_usage bGo = false ∧
    (check_unsynchronized_goroutines uGo).length = (find_goroutines bGo).length ∧
    check_unsynchronized_goroutines uGoRecv = [] :=
  ⟨by decide, by decide,
   ((c5_unsynchronized_goroutines uGo).1 (by decide) (by decide)).1,
   (c5_unsynchronized_goroutines uGoRecv).2 (by decide)⟩

theorem filterMap_ite_eq_map_filter {α β : Type} (p : α → Bool) (g : α → β) (l : List α) :
    (l.filterMap (fun a => if p a then some (g a) else none)) = (l.filter p).map g := by
  induction l with
  | nil => rfl
  | cons a l ih =>
    by_cases h : p a = true
    · simp [List.filterMap_cons, List.filter_cons, h, ih]
    · simp [List.filterMap_cons, List.filter_cons, h, ih]

theorem gorm_pattern_ne (m : String) :
    (("gorm." ++ m) == "postgres://|mysql://") = false := by
  apply beq_eq_false_iff_ne.mpr
  intro h
  have hd := congrArg String.data h
  rw [String.data_append] at hd
  have h5 : "gorm.".data = ['g', 'o', 'r', 'm', '.'] := rfl
  rw [h5] at hd
  simp at hd

/-- The `(file, line)`-located Critical issue that the string-literal scan
of `check_database_connections` builds for a matching literal node. -/
theorem db_filter_core (u : TestFunction) :
    (check_database_connections u).filter (fun i => i.pattern == "postgres://|mysql://")
      = ((stringLiteralCaptures u.body_node).filter (fun n => hasDbScheme n.text)).map
          (fun n =>
            { file := u.fileStr, line := n.startRow + 1, test_name := u.name,
              issue := "Real database connection in test makes it slow and environment-dependent",
              category := "External Dependency", severity := "Critical",
              pattern := "postgres://|mysql://",
              code_snippet := get_code_snippet n.text,
              suggestion := "Use a mock database, sqlmock, or test containers for integration tests. Unit tests should mock the database layer",
              metrics := [] }) := by
  simp only [check_database_connections]
  rw [List.filter_append, List.filter_append]
  have h1 : ∀ (l : List (Node × String × String)),
      (l.map (fun c =>
        ({ file := u.fileStr, line := c.1.startRow + 1, test_name := u.name,
           issue := "Real database connection in test makes it slow and environment-dependent",
           category := "External Dependency", severity := "Critical", pattern := "sql.Open",
           code_snippet := get_code_snippet c.1.text,
           suggestion := "Use a mock database, sqlmock, or test containers for integration tests. Unit tests should mock the database layer",
           metrics := [] } : Issue))).filter (fun i => i.pattern == "postgres://|mysql://") = [] := by
    intro l
    apply List.filter_eq_nil_iff.mpr
    intro i hi
    rcases List.mem_map.mp hi with ⟨c, _hc, hce⟩
    subst hce
    show ¬(("sql.Open" : String) == "postgres://|mysql://") = true
    decide
  have h2 : ∀ (l : List (Node × String × String)),
      (l.map (fun c =>
        ({ file := u.fileStr, line := c.1.startRow + 1, test_name := u.name,
           issue := "Real database connection in test makes it slow and environment-dependent",
           category := "External Dependency", severity := "Critical",
           pattern := "gorm." ++ c.2.2,
           code_snippet := get_code_snippet c.1.text,
           suggestion := "Use a mock database, sqlmock, or test containers for integration tests. Unit tests should mock the database layer",
           metrics := [] } : Issue))).filter (fun i => i.pattern == "postgres://|mysql://") = [] := by
    intro l
    apply List.filter_eq_nil_iff.mpr
    intro i hi
    rcases List.mem_map.mp hi with ⟨c, _hc, hce⟩
    subst hce
    simp only
    rw [gorm_pattern_ne c.2.2]
    simp
  rw [h1, h2]
  rw [filterMap_ite_eq_map_filter (fun n => hasDbScheme n.text)
    (fun n =>
      ({ file := u.fileStr, line := n.startRow + 1, test_name := u.name,
         issue := "Real database connection in test makes it slow and environment-dependent",
         category := "External Dependency", severity := "Critical",
         pattern := "postgres://|mysql://",
         code_snippet := get_code_snippet n.text,
         suggestion := "Use a mock database, sqlmock, or test containers for integration tests. Unit tests should mock the database layer",
         metrics := [] } : Issue))
    (stringLiteralCaptures u.body_node)]
  rw [List.nil_append, List.nil_append]
  apply List.filter_eq_self.mpr
  intro i hi
  rcases List.mem_map.mp hi with ⟨n, _hn, hne⟩
  subst hne
  show (("postgres://|mysql://" : String) == "postgres://|mysql://") = true
  decide

/-- C1: the external-dependency checker's literal-content scan emits
exactly one Critical External-Dependency Finding per string-literal node
in the unit's body whose text matches the connection-scheme regex (so
exactly one for a literal containing `postgres://user@host/db`); the scan
looks only at actual string-literal nodes, never comments, and when no
string literal in the body matches — in particular when the text occurs
only inside a `//` comment — it emits nothing. -/
theorem c1_string_literal_scan (u : TestFunction) :
    (((check_database_connections u).filter
        (fun i => i.pattern == "postgres://|mysql://")).length
      = ((stringLiteralCaptures u.body_node).filter (fun n => hasDbScheme n.text)).length)
    ∧ (∀ i ∈ check_database_connections u,
         i.severity = "Critical" ∧ i.category = "External Dependency")
    ∧ (∀ s : String, strContainsSub s "postgres://user@host/db" = true → hasDbScheme s = true)
    ∧ (∀ n ∈ stringLiteralCaptures u.body_node,
         n.kind = NodeKind.interpreted_string_literal ∨ n.kind = NodeKind.raw_string_literal)
    ∧ ((∀ n ∈ stringLiteralCaptures u.body_node, hasDbScheme n.text = false) →
        (check_database_connections u).filter (fun i => i.pattern == "postgres://|mysql://") = []) := by
  refine ⟨?_, ?_, ?_, ?_, ?_⟩
  · rw [db_filter_core u, List.length_map]
  · intro i hi
    simp only [check_database_connections] at hi
    rcases List.mem_append.mp hi with hi2 | hi2
    · rcases List.mem_append.mp hi2 with hi3 | hi3
      · rcases List.mem_map.mp hi3 with ⟨c, _hc, hce⟩
        subst hce
        exact ⟨rfl, rfl⟩
      · rcases List.mem_map.mp hi3 with ⟨c, _hc, hce⟩
        subst hce
        exact ⟨rfl, rfl⟩
    · rcases List.mem_filterMap.mp hi2 with ⟨n, _hn, hne⟩
      by_cases hdb : hasDbScheme n.text = true
      · rw [if_pos hdb] at hne
        cases hne
        exact ⟨rfl, rfl⟩
      · rw [if_neg hdb] at hne
        exact absurd hne (Option.noConfusion)
  · intro s h
    have hinf : "postgres://user@host/db".data <:+: s.data := of_decide_eq_true h
    have hpre : "postgres://".data <:+: "postgres://user@host/db".data := by decide
    unfold hasDbScheme strContainsSub
    rw [Bool.or_eq_true]
    exact Or.inl (decide_eq_true (hpre.trans hinf))
  · intro n hn
    have h2 := (List.mem_filter.mp hn).2
    rw [Bool.or_eq_true] at h2
    rcases h2 with h3 | h3
    · exact Or.inl (beq_iff_eq.mp h3)
    · exact Or.inr (beq_iff_eq.mp h3)
  · intro hall
    rw [db_filter_core u]
    rw [List.filter_eq_nil_iff.mpr (fun n hn => by rw [hall n hn]; exact Bool.false_ne_true)]
    rfl

/-- Witness for C1 at the concrete unit `uStr`: its body holds one
matching string literal and a `//` comment carrying the same text; the
scan produces exactly one matching Finding. -/
theorem c1_witness :
    strContainsSub "\"postgres://user@host/db\"" "postgres://user@host/db" = true ∧
    hasDbScheme "\"postgres://user@host/db\"" = true ∧
    ((check_database_connections uStr).filter
        (fun i => i.pattern == "postgres://|mysql://")).length
      = ((stringLiteralCaptures uStr.body_node).filter (fun n => hasDbScheme n.text)).length ∧
    ((stringLiteralCaptures uStr.body_node).filter (fun n => hasDbScheme n.text)).length = 1 :=
  ⟨by decide, (c1_string_literal_scan uStr).2.2.1 _ (by decide),
   (c1_string_literal_scan uStr).1, by decide⟩

theorem gs_and_not_na (a : Issue) : (isGsPattern a && !isNaPattern a) = isGsPattern a := by
  cases hg : isGsPattern a
  · simp
  · have hp : a.pattern = "global state" := beq_iff_eq.mp hg
    have hn : isNaPattern a = false := by
      unfold isNaPattern
      rw [hp]
      decide
    rw [hn]
    simp

theorem filter_gs_of_not_gs (S : List Issue) :
    (S.filter (fun i => !isGsPattern i)).filter isGsPattern = [] := by
  apply List.filter_eq_nil_iff.mpr
  intro a ha
  have h2 := (List.mem_filter.mp ha).2
  simp only [Bool.not_eq_eq_eq_not, Bool.not_true] at h2
  simp [h2]

theorem filter_gs_take_na (l : List Issue) (n : Nat) :
    ((l.filter isNaPattern).take n).filter isGsPattern = [] := by
  apply List.filter_eq_nil_iff.mpr
  intro a ha
  have h2 := (List.mem_filter.mp (List.mem_of_mem_take ha)).2
  have hp : a.pattern = "no assertions" := beq_iff_eq.mp h2
  unfold isGsPattern
  rw [hp]
  decide

/-- Pushing the `global state` filter through the two-cap pipeline of
`agg_anti_patterns` (applied to the already sorted list) leaves exactly
the first 20 sorted global-state findings. -/
theorem cap_filter_eq (S : List Issue) :
    List.filter isGsPattern
      ((List.filter (fun i => !isNaPattern i)
          (S.filter (fun i => !isGsPattern i) ++ (S.filter isGsPattern).take 20))
        ++ (((S.filter (fun i => !isGsPattern i) ++ (S.filter isGsPattern).take 20).filter
             isNaPattern).take 30))
      = (S.filter isGsPattern).take 20 := by
  rw [List.filter_append, List.filter_filter]
  have hcongr : List.filter (fun a => isGsPattern a && !isNaPattern a)
      (S.filter (fun i => !isGsPattern i) ++ (S.filter isGsPattern).take 20)
      = List.filter isGsPattern
          (S.filter (fun i => !isGsPattern i) ++ (S.filter isGsPattern).take 20) :=
    List.filter_congr (fun a _ => gs_and_not_na a)
  rw [hcongr, List.filter_append, filter_gs_of_not_gs]
  rw [List.filter_eq_self.mpr
        (fun a ha => (List.mem_filter.mp (List.mem_of_mem_take ha)).2)]
  rw [filter_gs_take_na]
  simp

/-- C6: when more than 20 global-state Findings are produced across a
run, the anti-pattern checker's report keeps exactly 20 of them, namely
the first 20 of the `(file, line)`-sorted full list (hence the
lexicographically smallest ones: every kept finding precedes every
dropped one in the key order), and the final issue list is again sorted
by `(file, line)` after capping. -/
theorem c6_global_state_cap (all_issues : List Issue)
    (h : 20 < (all_issues.filter isGsPattern).length) :
    ((agg_anti_patterns all_issues).filter isGsPattern).length = 20 ∧
    ((agg_anti_patterns all_issues).filter isGsPattern).Perm
      (((sort_issues all_issues).filter isGsPattern).take 20) ∧
    (∀ x ∈ ((sort_issues all_issues).filter isGsPattern).take 20,
      ∀ y ∈ ((sort_issues all_issues).filter isGsPattern).drop 20, issueLe x y) ∧
    List.Sorted issueLe (agg_anti_patterns all_issues) := by
  have hperm : ((agg_anti_patterns all_issues).filter isGsPattern).Perm
      (((sort_issues all_issues).filter isGsPattern).take 20) := by
    unfold agg_anti_patterns sort_issues
    refine List.Perm.trans
      (List.Perm.filter isGsPattern (List.perm_insertionSort issueLe _)) ?_
    rw [cap_filter_eq]
  have hlen_gs : ((sort_issues all_issues).filter isGsPattern).length
      = (all_issues.filter isGsPattern).length := by
    unfold sort_issues
    exact (List.Perm.filter isGsPattern (List.perm_insertionSort issueLe all_issues)).length_eq
  have h20 : (((sort_issues all_issues).filter isGsPattern).take 20).length = 20 := by
    rw [List.length_take]
    omega
  refine ⟨?_, hperm, ?_, ?_⟩
  · rw [hperm.length_eq, h20]
  · have hSsorted : List.Sorted issueLe (sort_issues all_issues) := by
      unfold sort_issues
      exact List.sorted_insertionSort issueLe all_issues
    have hgs_sorted : List.Sorted issueLe ((sort_issues all_issues).filter isGsPattern) :=
      List.Pairwise.filter isGsPattern hSsorted
    have hsplit := List.take_append_drop 20 ((sort_issues all_issues).filter isGsPattern)
    rw [← hsplit] at hgs_sorted
    exact (List.pairwise_append.mp hgs_sorted).2.2
  · unfold agg_anti_patterns sort_issues
    exact List.sorted_insertionSort issueLe _

/-- Witness for C6: 35 global-state findings arriving in descending line
order are capped to exactly 20. -/
theorem c6_witness :
    20 < (issues35.filter isGsPattern).length ∧
    ((agg_anti_patterns issues35).filter isGsPattern).length = 20 :=
  ⟨by decide, (c6_global_state_cap issues35 (by decide)).1⟩

/-- C8: an existing root with no file matching the `*_test.go` convention
makes every checker return a well-formed report (not an error) with an
empty issues array and all summary counts zero. -/
theorem c8_empty_discovery (root : RootInput)
    (hfound : root.found = true)
    (hnone : (root.files.filter (fun f => f.path.endsWith "_test.go")).isEmpty = true) :
    (run_check_anti_patterns root = .ok (build_json_output "check-anti-patterns" []) ∧
     run_check_complexity root = .ok (build_json_output "check-complexity" []) ∧
     run_check_external_deps root = .ok (build_json_output "check-external-deps" []) ∧
     run_check_flaky_patterns root = .ok (build_json_output "check-flaky-patterns" [])) ∧
    ∀ name : String, (build_json_output name []).issues = [] ∧
      (build_json_output name []).summary = ⟨0, 0, 0, 0, 0⟩ := by
  have hfiles : find_test_files root.files = [] := by
    unfold find_test_files
    rw [List.isEmpty_iff.mp hnone]
    rfl
  have hrun : ∀ (nm : String) (an : GoFile → List Issue) (ag : List Issue → List Issue),
      run_check nm an ag root = .ok (build_json_output nm []) := by
    intro nm an ag
    unfold run_check
    rw [hfound]
    simp [hfiles]
  exact ⟨⟨hrun _ _ _, hrun _ _ _, hrun _ _ _, hrun _ _ _⟩, fun _ => ⟨rfl, rfl⟩⟩

/-- Witness for C8 at a concrete root holding one non-test file. -/
theorem c8_witness :
    rootNoTests.found = true ∧
    (rootNoTests.files.filter (fun f => f.path.endsWith "_test.go")).isEmpty = true ∧
    run_check_anti_patterns rootNoTests = .ok (build_json_output "check-anti-patterns" []) ∧
    (build_json_output "check-anti-patterns" []).issues = [] ∧
    (build_json_output "check-anti-patterns" []).summary = ⟨0, 0, 0, 0, 0⟩ :=
  ⟨rfl, by decide,
   (c8_empty_discovery rootNoTests rfl (by decide)).1.1,
   ((c8_empty_discovery rootNoTests rfl (by decide)).2 "check-anti-patterns").1,
   ((c8_empty_discovery rootNoTests rfl (by decide)).2 "check-anti-patterns").2⟩

/-- C9: each checker is a pure function of the discovered files (and root
existence); running any checker twice on equal inputs renders
byte-identical output, with no run-to-run state in the embedding of the
pipeline. -/
theorem c9_deterministic_reports (r1 r2 : RootInput) (h : r1 = r2) :
    render_run (run_check_anti_patterns r1) = render_run (run_check_anti_patterns r2) ∧
    render_run (run_check_complexity r1) = render_run (run_check_complexity r2) ∧
    render_run (run_check_external_deps r1) = render_run (run_check_external_deps r2) ∧
    render_run (run_check_flaky_patterns r1) = render_run (run_check_flaky_patterns r2) := by
  subst h
  exact ⟨rfl, rfl, rfl, rfl⟩

/-- Witness for C9 at a concrete root. -/
theorem c9_witness :
    render_run (run_check_anti_patterns rootNoTests)
      = render_run (run_check_anti_patterns rootNoTests) :=
  (c9_deterministic_reports rootNoTests rootNoTests rfl).1

theorem mem_find_function_calls {b : Node} {pp : NamePat} {mp : Option NamePat}
    {c : Node × String × String} (h : c ∈ find_function_calls b pp mp) :
    c.1 ∈ collectAll b := by
  rcases List.mem_filterMap.mp h with ⟨n, hn, heq⟩
  split at heq
  · split at heq
    · cases heq
      exact hn
    · exact absurd heq (by simp)
  · exact absurd heq (by simp)

theorem mem_stringLiteralCaptures {b n : Node} (h : n ∈ stringLiteralCaptures b) :
    n ∈ collectAll b := (List.mem_filter.mp h).1

theorem mem_find_goroutines {b n : Node} (h : n ∈ find_goroutines b) :
    n ∈ collectAll b := (List.mem_filter.mp h).1

theorem childField_mem {n c : Node} {f : String} (h : n.childField f = some c) :
    c ∈ n.children := List.mem_of_find?_eq_some h

theorem httpCompositeMatch_mem {t : String} {n pkg fld : Node}
    (hm : httpCompositeMatch t n = some (pkg, fld)) :
    ∃ ty ∈ n.children, pkg ∈ ty.children ∧ fld ∈ ty.children := by
  unfold httpCompositeMatch at hm
  split at hm
  · split at hm
    · rename_i ty hty
      split at hm
      · split at hm
        · rename_i hops pkg2 fld2 hop hfl
          split at hm
          · cases hm
            exact ⟨ty, childField_mem hty, childField_mem hop, childField_mem hfl⟩
          · exact absurd hm (by simp)
        · exact absurd hm (by simp)
        · exact absurd hm (by simp)
      · exact absurd hm (by simp)
    · exact absurd hm (by simp)
  · exact absurd hm (by simp)

theorem mem_httpCompositeCaptureList {t cn : String} {b : Node} {x : Node × String}
    (h : x ∈ httpCompositeCaptureList t cn b) : x.1 ∈ collectAll b := by
  rcases List.mem_flatMap.mp h with ⟨n, hn, hx⟩
  split at hx
  · rename_i pkg fld hm
    rcases httpCompositeMatch_mem hm with ⟨ty, hty, hpkg, hfld⟩
    have htyc : ty ∈ collectAll b := child_mem_collectAll hn hty
    simp only [List.mem_cons, List.not_mem_nil, or_false] at hx
    rcases hx with rfl | rfl | rfl
    · exact child_mem_collectAll htyc hpkg
    · exact child_mem_collectAll htyc hfld
    · exact hn
  · exact absurd hx (List.not_mem_nil _)

theorem gsScan_shape (u : TestFunction) (l : List GsCap) :
    ∀ i ∈ gsScan u l, ∃ c ∈ l, ∃ p, c.parentNode = some p ∧ i = gsIssueOf u p := by
  induction l with
  | nil => intro i hi; exact absurd hi (by simp [gsScan])
  | cons c rest ih =>
    intro i hi
    simp only [gsScan] at hi
    split at hi
    · split at hi
      · rename_i p hp
        rw [List.mem_singleton] at hi
        exact ⟨c, List.mem_cons_self _ _, p, hp, hi⟩
      · rcases ih i hi with ⟨d, hd, p, hp, he⟩
        exact ⟨d, List.mem_cons_of_mem _ hd, p, hp, he⟩
    · rcases ih i hi with ⟨d, hd, p, hp, he⟩
      exact ⟨d, List.mem_cons_of_mem _ hd, p, hp, he⟩

theorem assignmentCaptureList_parent_mem {b : Node} {c : GsCap}
    (h : c ∈ assignmentCaptureList b) {p : Node} (hp : c.parentNode = some p) :
    p ∈ collectAll b := by
  rcases List.mem_flatMap.mp h with ⟨n, hn, hc⟩
  split at hc
  · split at hc
    · rename_i el hel
      split at hc
      · rcases List.mem_flatMap.mp hc with ⟨v, _hv, hcv⟩
        simp only [List.mem_cons, List.not_mem_nil, or_false] at hcv
        rcases hcv with rfl | rfl
        · exact absurd hp (by simp)
        · simp only [GsCap.mk.injEq] at hp ⊢
          have hpe : some el = some p := hp
          cases hpe
          exact child_mem_collectAll hn (childField_mem hel)
      · exact absurd hc (List.not_mem_nil _)
    · exact absurd hc (List.not_mem_nil _)
  · exact absurd hc (List.not_mem_nil _)

theorem sevCritical : ("Critical" : String) ∈ severitySet := by decide

theorem sevHigh : ("High" : String) ∈ severitySet := by decide

theorem sevMedium : ("Medium" : String) ∈ severitySet := by decide

theorem issueOk_append {u : TestFunction} {l1 l2 : List Issue}
    (h1 : ∀ i ∈ l1, issueOk u i) (h2 : ∀ i ∈ l2, issueOk u i) :
    ∀ i ∈ l1 ++ l2, issueOk u i := by
  intro i hi
  rcases List.mem_append.mp hi with h | h
  · exact h1 i h
  · exact h2 i h

theorem issueOk_flatMap {α : Type} {u : TestFunction} {l : List α} {f : α → List Issue}
    (h : ∀ a ∈ l, ∀ i ∈ f a, issueOk u i) :
    ∀ i ∈ l.flatMap f, issueOk u i := by
  intro i hi
  rcases List.mem_flatMap.mp hi with ⟨a, ha, hia⟩
  exact h a ha i hia

theorem issueOk_calls_map {u : TestFunction} {pp : NamePat} {mp : Option NamePat}
    {f : Node × String × String → Issue}
    (hf : ∀ c, (f c).line = c.1.startRow + 1)
    (hsev : ∀ c, (f c).severity ∈ severitySet) :
    ∀ i ∈ (find_function_calls u.body_node pp mp).map f, issueOk u i := by
  intro i hi
  rcases List.mem_map.mp hi with ⟨c, hc, hce⟩
  subst hce
  exact ⟨Or.inr ⟨c.1, mem_find_function_calls hc, hf c⟩, hsev c⟩

theorem ok_reflection (u : TestFunction) : ∀ i ∈ check_reflection_usage u, issueOk u i := by
  simp only [check_reflection_usage]
  apply issueOk_append
  · apply issueOk_flatMap
    intro pm _
    exact issueOk_calls_map (fun c => rfl) (fun c => sevHigh)
  · apply issueOk_flatMap
    intro m _
    apply issueOk_flatMap
    intro c hc i hi
    split at hi
    · rw [List.mem_singleton] at hi
      subst hi
      exact ⟨Or.inr ⟨c.1, mem_find_function_calls hc, rfl⟩, sevHigh⟩
    · exact absurd hi (List.not_mem_nil _)

theorem ok_assertion_count (u : TestFunction) :
    ∀ i ∈ check_assertion_count u, issueOk u i := by
  intro i hi
  simp only [check_assertion_count] at hi
  split at hi
  · rw [List.mem_singleton] at hi
    subst hi
    exact ⟨Or.inl rfl, sevMedium⟩
  · exact absurd hi (List.not_mem_nil _)

theorem ok_missing_cleanup (u : TestFunction) :
    ∀ i ∈ check_missing_cleanup u, issueOk u i := by
  intro i hi
  simp only [check_missing_cleanup] at hi
  split at hi
  · exact absurd hi (List.not_mem_nil _)
  · split at hi
    · rcases List.mem_map.mp hi with ⟨c, hc, hce⟩
      subst hce
      exact ⟨Or.inr ⟨c.1, mem_find_function_calls hc, rfl⟩, sevMedium⟩
    · exact absurd hi (List.not_mem_nil _)

theorem ok_global_state (u : TestFunction) :
    ∀ i ∈ check_global_state u, issueOk u i := by
  intro i hi
  unfold check_global_state at hi
  rcases gsScan_shape u _ i hi with ⟨c, hc, p, hp, he⟩
  subst he
  have hcm : c ∈ assignmentCaptureList u.body_node := List.mem_of_mem_take hc
  exact ⟨Or.inr ⟨p, assignmentCaptureList_parent_mem hcm hp, rfl⟩, sevMedium⟩

theorem ok_missing_assertions (u : TestFunction) :
    ∀ i ∈ check_missing_assertions u, issueOk u i := by
  intro i hi
  simp only [check_missing_assertions] at hi
  split at hi
  · exact absurd hi (List.not_mem_nil _)
  · split at hi
    · split at hi
      · rw [List.mem_singleton] at hi
        subst hi
        exact ⟨Or.inl rfl, sevMedium⟩
      · exact absurd hi (List.not_mem_nil _)
    · exact absurd hi (List.not_mem_nil _)

theorem ok_long_functions (u : TestFunction) :
    ∀ i ∈ check_long_functions u, issueOk u i := by
  intro i hi
  simp only [check_long_functions] at hi
  split at hi
  · rw [List.mem_singleton] at hi
    subst hi
    exact ⟨Or.inl rfl, sevHigh⟩
  · exact absurd hi (List.not_mem_nil _)

theorem ok_excessive_mocks (u : TestFunction) :
    ∀ i ∈ check_excessive_mocks u, issueOk u i := by
  intro i hi
  simp only [check_excessive_mocks] at hi
  split at hi
  · rw [List.mem_singleton] at hi
    subst hi
    exact ⟨Or.inl rfl, sevHigh⟩
  · exact absurd hi (List.not_mem_nil _)

theorem ok_complex_logic2 (u : TestFunction) :
    ∀ i ∈ check_complex_logic u, issueOk u i := by
  intro i hi
  simp only [check_complex_logic] at hi
  split at hi
  · rw [List.mem_singleton] at hi
    subst hi
    exact ⟨Or.inl rfl, sevMedium⟩
  · exact absurd hi (List.not_mem_nil _)

theorem ok_test_names (u : TestFunction) :
    ∀ i ∈ check_test_names u, issueOk u i := by
  intro i hi
  simp only [check_test_names] at hi
  split at hi
  · rw [List.mem_singleton] at hi
    subst hi
    exact ⟨Or.inl rfl, sevMedium⟩
  · exact absurd hi (List.not_mem_nil _)

theorem ok_time_sleep (u : TestFunction) :
    ∀ i ∈ check_time_sleep u, issueOk u i := by
  simp only [check_time_sleep]
  exact issueOk_calls_map (fun c => rfl) (fun c => sevCritical)

theorem ok_database_connections (u : TestFunction) :
    ∀ i ∈ check_database_connections u, issueOk u i := by
  simp only [check_database_connections]
  apply issueOk_append
  · apply issueOk_append
    · exact issueOk_calls_map (fun c => rfl) (fun c => sevCritical)
    · exact issueOk_calls_map (fun c => rfl) (fun c => sevCritical)
  · intro i hi
    rcases List.mem_filterMap.mp hi with ⟨n, hn, hne⟩
    split at hne
    · cases hne
      exact ⟨Or.inr ⟨n, mem_stringLiteralCaptures hn, rfl⟩, sevCritical⟩
    · exact absurd hne (by simp)

theorem ok_http_calls (u : TestFunction) :
    ∀ i ∈ check_http_calls u, issueOk u i := by
  intro i hi
  simp only [check_http_calls] at hi
  split at hi
  · exact absurd hi (List.not_mem_nil _)
  · rcases List.mem_append.mp hi with h | h
    · rcases List.mem_flatMap.mp h with ⟨m, _hm, hin⟩
      exact issueOk_calls_map (fun c => rfl) (fun c => sevCritical) i hin
    · rcases List.mem_map.mp h with ⟨nc, hnc, hce⟩
      subst hce
      exact ⟨Or.inr ⟨nc.1, mem_httpCompositeCaptureList hnc, rfl⟩, sevCritical⟩

theorem ok_web_servers (u : TestFunction) :
    ∀ i ∈ check_web_servers u, issueOk u i := by
  simp only [check_web_servers]
  apply issueOk_append
  · exact issueOk_calls_map (fun c => rfl) (fun c => sevCritical)
  · intro i hi
    rcases List.mem_map.mp hi with ⟨nc, hnc, hce⟩
    subst hce
    exact ⟨Or.inr ⟨nc.1, mem_httpCompositeCaptureList hnc, rfl⟩, sevCritical⟩

theorem ok_file_io (u : TestFunction) :
    ∀ i ∈ check_file_io u, issueOk u i := by
  simp only [check_file_io]
  apply issueOk_flatMap
  intro pm _
  apply issueOk_flatMap
  intro c hc i hi
  split at hi
  · rw [List.mem_singleton] at hi
    subst hi
    exact ⟨Or.inr ⟨c.1, mem_find_function_calls hc, rfl⟩, sevHigh⟩
  · exact absurd hi (List.not_mem_nil _)

theorem ok_unsynchronized_goroutines (u : TestFunction) :
    ∀ i ∈ check_unsynchronized_goroutines u, issueOk u i := by
  intro i hi
  simp only [check_unsynchronized_goroutines] at hi
  split at hi
  · exact absurd hi (List.not_mem_nil _)
  · split at hi
    · rcases List.mem_map.mp hi with ⟨g, hg, hge⟩
      subst hge
      exact ⟨Or.inr ⟨g, mem_find_goroutines hg, rfl⟩, sevCritical⟩
    · exact absurd hi (List.not_mem_nil _)

theorem ok_unseeded_random (u : TestFunction) :
    ∀ i ∈ check_unseeded_random u, issueOk u i := by
  intro i hi
  simp only [check_unseeded_random] at hi
  split at hi
  · exact absurd hi (List.not_mem_nil _)
  · split at hi
    · rcases List.mem_map.mp hi with ⟨c, hc, hce⟩
      subst hce
      rcases List.mem_flatMap.mp hc with ⟨m, _hm, hcm⟩
      exact ⟨Or.inr ⟨c.1, mem_find_function_calls hcm, rfl⟩, sevHigh⟩
    · exact absurd hi (List.not_mem_nil _)

theorem ok_time_dependencies (u : TestFunction) :
    ∀ i ∈ check_time_dependencies u, issueOk u i := by
  simp only [check_time_dependencies]
  exact issueOk_calls_map (fun c => rfl) (fun c => sevHigh)

theorem ok_hardcoded_timeouts (u : TestFunction) :
    ∀ i ∈ check_hardcoded_timeouts u, issueOk u i := by
  simp only [check_hardcoded_timeouts]
  apply issueOk_flatMap
  intro pm _
  apply issueOk_flatMap
  intro c hc i hi
  split at hi
  · exact absurd hi (List.not_mem_nil _)
  · split at hi
    · rw [List.mem_singleton] at hi
      subst hi
      exact ⟨Or.inr ⟨c.1, mem_find_function_calls hc, rfl⟩, sevHigh⟩
    · exact absurd hi (List.not_mem_nil _)

/-- C7: every Finding of every rule of the four checkers carries a line
inside the producing unit's `[start_line, end_line]` span (given the
parse-tree well-formedness every parser guarantees, and the extractor's
line bookkeeping), and a severity from the fixed four-value set. -/
theorem c7_findings_in_span (u : TestFunction)
    (hwf : WFTree u.body_node)
    (hs : u.start_line = u.body_node.startRow + 1)
    (he : u.end_line = u.body_node.endRow + 1) :
    ∀ i ∈ analyze_unit_anti u ++ analyze_unit_complexity u ++ analyze_unit_deps u
        ++ analyze_unit_flaky u,
      (u.start_line ≤ i.line ∧ i.line ≤ u.end_line) ∧ i.severity ∈ severitySet := by
  have hA : ∀ i ∈ analyze_unit_anti u, issueOk u i := by
    unfold analyze_unit_anti
    exact issueOk_append (issueOk_append (issueOk_append (issueOk_append
      (ok_reflection u) (ok_assertion_count u)) (ok_missing_cleanup u))
      (ok_global_state u)) (ok_missing_assertions u)
  have hB : ∀ i ∈ analyze_unit_complexity u, issueOk u i := by
    unfold analyze_unit_complexity
    exact issueOk_append (issueOk_append (issueOk_append
      (ok_long_functions u) (ok_excessive_mocks u)) (ok_complex_logic2 u))
      (ok_test_names u)
  have hC : ∀ i ∈ analyze_unit_deps u, issueOk u i := by
    unfold analyze_unit_deps
    exact issueOk_append (issueOk_append (issueOk_append (issueOk_append
      (ok_time_sleep u) (ok_database_connections u)) (ok_http_calls u))
      (ok_web_servers u)) (ok_file_io u)
  have hD : ∀ i ∈ analyze_unit_flaky u, issueOk u i := by
    unfold analyze_unit_flaky
    exact issueOk_append (issueOk_append (issueOk_append
      (ok_unsynchronized_goroutines u) (ok_unseeded_random u))
      (ok_time_dependencies u)) (ok_hardcoded_timeouts u)
  have hok : ∀ i ∈ analyze_unit_anti u ++ analyze_unit_complexity u ++ analyze_unit_deps u
      ++ analyze_unit_flaky u, issueOk u i :=
    issueOk_append (issueOk_append (issueOk_append hA hB) hC) hD
  intro i hi
  rcases hok i hi with ⟨hline, hsev⟩
  refine ⟨?_, hsev⟩
  have hself := hwf _ (self_mem_collectAll u.body_node)
  rcases hline with h3 | ⟨n, hn, h3⟩
  · rw [h3, hs, he]
    have h4 := hself.1
    omega
  · rcases span_of_mem_collectAll hwf n hn with ⟨hb1, hb2, hb3⟩
    rw [h3, hs, he]
    omega

/-- Witness for C7 at the concrete unit `uStr` (well-formed body, lines
consistent with the body's rows). -/
theorem c7_witness :
    WFTree uStr.body_node ∧
    ∀ i ∈ analyze_unit_anti uStr ++ analyze_unit_complexity uStr ++ analyze_unit_deps uStr
        ++ analyze_unit_flaky uStr,
      (uStr.start_line ≤ i.line ∧ i.line ≤ uStr.end_line) ∧ i.severity ∈ severitySet :=
  ⟨by decide, c7_findings_in_span uStr (by decide) rfl rfl⟩
